import Mathlib

/-!
# The query handlers of the MySQL MCP server

A shallow embedding of `internal/handlers.go` (with the constants of
`internal/server.go`).  Every handler is a function of the tool arguments and
of the database collaborator; it returns its outcome together with the list of
statements it sent to the database, in the order they were sent.

Conventions of the embedding:

* Go's `int` is 64 bits wide and is modelled by `Int` with an explicit
  two's-complement wrap after every arithmetic operation.
* Go strings are modelled by `String`: the text whose UTF-8 bytes they hold.
  The string functions of the standard library work on the list of code
  points.  The cells of a result row keep their bytes (`List UInt8`), which
  need not be valid UTF-8; `jsonString` is the text that the JSON document
  holds for them.
* The parts of the Go run time and standard library that are tables or
  implementation-dependent (Unicode case mapping outside ASCII, the result of
  converting an out-of-range `float64` to `int`) are fields of `GoLib`.
* `database/sql` is modelled by `DB`: one oracle per shape of `Scan`
  destination, from the statement (text and bound arguments) to the driver's
  answer.
-/

namespace MysqlMcp

/-! ## Go integers -/

/-- Smallest value of a 64-bit `int`. -/
def minInt : Int := -(2 ^ 63)

/-- Largest value of a 64-bit `int`. -/
def maxInt : Int := 2 ^ 63 - 1

/-- Two's-complement wrap of a mathematical integer into the range of `int`. -/
def wrapInt (z : Int) : Int := (z + 2 ^ 63) % 2 ^ 64 - 2 ^ 63

/-- Go `a + b` on `int`. -/
def addInt (a b : Int) : Int := wrapInt (a + b)

/-- Go `a - b` on `int`. -/
def subInt (a b : Int) : Int := wrapInt (a - b)

/-- Go `a * b` on `int`. -/
def mulInt (a b : Int) : Int := wrapInt (a * b)

/-- Go `a / b` on `int`: the quotient truncated toward zero; `none` is the
run-time panic "integer divide by zero". -/
def divInt (a b : Int) : Option Int :=
  if b = 0 then none else some (wrapInt (Int.tdiv a b))

/-- Parts of the Go run time and standard library that the repository does not
contain: `upperCase` and `lowerCase` are `unicode.To(UpperCase, r)` and
`unicode.To(LowerCase, r)` on runes above `unicode.MaxASCII`, and
`floatOutOfRange` is the implementation-dependent value of `int(v)` for a
`float64` whose truncation does not fit an `int`. -/
structure GoLib where
  upperCase : Char → Char
  lowerCase : Char → Char
  floatOutOfRange : Rat → Int

/-- Go `int(v)` for a finite `float64` (given as the rational it denotes):
truncation toward zero when the result fits. -/
def floatToInt (lib : GoLib) (v : Rat) : Int :=
  let t := Int.tdiv v.num (v.den : Int)
  if minInt ≤ t ∧ t ≤ maxInt then t else lib.floatOutOfRange v

/-- Decimal form of an integer, the `%d` verb of `fmt.Sprintf`. -/
def fmtInt (n : Int) : String :=
  if n < 0 then "-" ++ Nat.repr n.natAbs else Nat.repr n.toNat

/-! ## Package `unicode` -/

namespace unicode

/-- Go `unicode.ToUpper`. -/
def ToUpper (lib : GoLib) (r : Char) : Char :=
  if r.toNat ≤ 0x7F then
    if 'a'.toNat ≤ r.toNat ∧ r.toNat ≤ 'z'.toNat then Char.ofNat (r.toNat - 32) else r
  else lib.upperCase r

/-- Go `unicode.ToLower`. -/
def ToLower (lib : GoLib) (r : Char) : Char :=
  if r.toNat ≤ 0x7F then
    if 'A'.toNat ≤ r.toNat ∧ r.toNat ≤ 'Z'.toNat then Char.ofNat (r.toNat + 32) else r
  else lib.lowerCase r

/-- Go `unicode.IsSpace`: the Latin-1 spaces and the `White_Space` table. -/
def IsSpace (r : Char) : Bool :=
  let n := r.toNat
  (0x09 ≤ n && n ≤ 0x0D) || n == 0x20 || n == 0x85 || n == 0xA0 || n == 0x1680 ||
  (0x2000 ≤ n && n ≤ 0x200A) || n == 0x2028 || n == 0x2029 || n == 0x202F ||
  n == 0x205F || n == 0x3000

end unicode

/-! ## Package `strings` -/

namespace strings

/-- Go `strings.ToUpper`: every rune mapped by `unicode.ToUpper`. -/
def ToUpper (lib : GoLib) (s : String) : String :=
  String.mk (s.data.map (unicode.ToUpper lib))

/-- Go `strings.ToLower`: every rune mapped by `unicode.ToLower`. -/
def ToLower (lib : GoLib) (s : String) : String :=
  String.mk (s.data.map (unicode.ToLower lib))

/-- Go `strings.TrimSpace`: leading and trailing white space removed. -/
def TrimSpace (s : String) : String :=
  String.mk (((s.data.dropWhile unicode.IsSpace).reverse.dropWhile unicode.IsSpace).reverse)

/-- Go `strings.HasPrefix`. -/
def HasPrefix (s pre : String) : Bool :=
  pre.data.isPrefixOf s.data

/-- Whether `sub` occurs in `l` as a block of consecutive elements. -/
def containsList (sub : List Char) : List Char → Bool
  | [] => sub.isPrefixOf []
  | c :: cs => sub.isPrefixOf (c :: cs) || containsList sub cs

/-- Go `strings.Contains`. -/
def Contains (s substr : String) : Bool :=
  containsList substr.data s.data

/-- Go `strings.Join`. -/
def Join : List String → String → String
  | [], _ => ""
  | [a], _ => a
  | a :: b :: rest, sep => a ++ sep ++ Join (b :: rest) sep

/-- Pieces of a list of runes between the occurrences of `sep`. -/
def splitList (sep : Char) : List Char → List (List Char)
  | [] => [[]]
  | c :: cs =>
    if c = sep then [] :: splitList sep cs
    else
      match splitList sep cs with
      | [] => [[c]]
      | piece :: pieces => (c :: piece) :: pieces

/-- Go `strings.Split` for a separator of one rune (the handlers only split
at `","`). -/
def Split (s : String) (sep : Char) : List String :=
  (splitList sep s.data).map String.mk

end strings

/-! ## Packages `unicode/utf8` and `encoding/json` -/

/-- The UTF-8 encoding of a rune. -/
def utf8Rune (c : Char) : List UInt8 :=
  let n := c.toNat
  if n < 0x80 then [UInt8.ofNat n]
  else if n < 0x800 then [UInt8.ofNat (0xC0 + n / 64), UInt8.ofNat (0x80 + n % 64)]
  else if n < 0x10000 then
    [UInt8.ofNat (0xE0 + n / 4096), UInt8.ofNat (0x80 + n / 64 % 64), UInt8.ofNat (0x80 + n % 64)]
  else
    [UInt8.ofNat (0xF0 + n / 262144), UInt8.ofNat (0x80 + n / 4096 % 64),
     UInt8.ofNat (0x80 + n / 64 % 64), UInt8.ofNat (0x80 + n % 64)]

/-- The bytes of a text: the UTF-8 encodings of its runes, one after the
other. -/
def utf8Bytes (s : String) : List UInt8 :=
  s.data.flatMap utf8Rune

/-- A value of the argument map (`map[string]any`): what the JSON decoder or
the terminal front-end puts there. -/
inductive ArgVal where
  | str (s : String)
  | float (v : Rat)
  | int (n : Int)
  | bool (b : Bool)
  | null
  | other
  deriving DecidableEq

/-- The argument map of a tool call; `none` is an absent key. -/
abbrev Args := String → Option ArgVal

/-- Go `args[key].(string)`: the value and whether the assertion holds. -/
def asString (args : Args) (key : String) : String × Bool :=
  match args key with
  | some (.str s) => (s, true)
  | _ => ("", false)

/-- Go `getIntFromArgs`. -/
def getIntFromArgs (lib : GoLib) (args : Args) (key : String) (defaultValue : Int) : Int :=
  match args key with
  | some (.float v) => floatToInt lib v
  | some (.int n) => n
  | _ => defaultValue

/-- Constant `DefaultPageSize` of `internal/server.go`. -/
def DefaultPageSize : Int := 20

/-- Constant `MaxPageSize` of `internal/server.go`. -/
def MaxPageSize : Int := 100

/-! ## The database collaborator -/

/-- A value bound to a `?` placeholder. -/
inductive SqlArg where
  | str (s : String)
  | int (n : Int)
  deriving DecidableEq

/-- A statement sent to the database: its text and its bound arguments. -/
structure Stmt where
  text : String
  args : List SqlArg
  deriving DecidableEq

/-- A raw cell of a result row, as the driver delivers it to a destination of
type `interface{}`.  A byte slice (`bytes`) and a Go string (`str`) are given
by their bytes. -/
inductive Cell where
  | null
  | int (n : Int)
  | float (v : Rat)
  | bool (b : Bool)
  | bytes (b : List UInt8)
  | str (s : List UInt8)
  | time (t : String)
  deriving DecidableEq

/-- Result of `db.Query` read through `rows.Columns`, `rows.Next` and a
`rows.Scan` into `interface{}` destinations: the reported column list and the
rows delivered until `rows.Next` returns false. -/
structure RawRows where
  columns : Except String (List String)
  rows : List (List Cell)

/-- A row of the table listing, scanned into `string`, `sql.NullString` and
`sql.NullInt64` destinations (`none` is `Valid == false`). -/
structure TableRow where
  tableName : String
  tableType : String
  engine : Option String
  tableRows : Option Int
  dataLength : Option Int
  indexLength : Option Int
  createTime : Option String
  updateTime : Option String

/-- A row of the column listing of `getTableStructureHandler`. -/
structure ColumnRow where
  colName : String
  colType : String
  isNullable : String
  colKey : String
  colDefault : Option String
  extra : String
  comment : String

/-- A row of the index listing of `getTableStructureHandler`. -/
structure IndexRow where
  indexName : String
  nonUnique : Int
  columns : String

/-- The `*sql.DB` handle.  `queryRow…` is `db.QueryRow(…).Scan(…)`; the other
fields are `db.Query(…)`, whose answer lists, for every row for which
`rows.Next` is true, the outcome of `rows.Scan` into the destinations of the
call site. -/
structure DB where
  queryRowInt : Stmt → Except String Int
  queryRowStrings : Stmt → Except String (String × String)
  queryStrings : Stmt → Except String (List (Except String String))
  queryTables : Stmt → Except String (List (Except String TableRow))
  queryNameTypes : Stmt → Except String (List (Except String (String × String)))
  queryColumns : Stmt → Except String (List (Except String ColumnRow))
  queryIndexes : Stmt → Except String (List (Except String IndexRow))
  queryRaw : Stmt → Except String RawRows

/-- Go type `MySQLServer`. -/
structure MySQLServer where
  db : DB

/-! ## Outcomes -/

/-- How a handler ends: with a result document, with an error, or with a
run-time panic. -/
inductive Outcome (α : Type) where
  | result (doc : α)
  | error (msg : String)
  | panic (msg : String)

/-- A handler invocation: how it ended and the statements it sent to the
database, in order. -/
structure Run (α : Type) where
  outcome : Outcome α
  issued : List Stmt

/-- Go `jsonResult`, up to serialisation: the document is returned as it is
(`json.Marshal` does not fail on the kinds of value the handlers put in their
documents).  In the JSON text a Go string with the bytes `bs` is written as
the text `jsonString bs`. -/
def jsonResult {α : Type} (data : α) : Outcome α := Outcome.result data

/-- Message of the panic raised by an integer division by zero. -/
def divideByZero : String := "runtime error: integer divide by zero"

/-- The loop `for rows.Next() { if err := rows.Scan(…); err != nil { return … }; … }`
over typed destinations: the scanned rows, or the first scan error. -/
def scanAll {ρ : Type} : List (Except String ρ) → Except String (List ρ)
  | [] => .ok []
  | .error e :: _ => .error e
  | .ok r :: rest =>
    match scanAll rest with
    | .error e => .error e
    | .ok rs => .ok (r :: rs)

/-- Go `rows.Scan(valuePtrs...)` into `n` destinations of type `interface{}`:
it fails only when the row does not have `n` columns. -/
def scanRaw (n : Nat) (row : List Cell) : Except String (List Cell) :=
  if row.length = n then .ok row
  else .error ("sql: expected " ++ fmtInt row.length ++
    " destination arguments in Scan, not " ++ fmtInt n)

/-- Go map assignment `m[k] = v` on a map kept as an association list. -/
def mapSet {β : Type} (m : List (String × β)) (k : String) (v : β) : List (String × β) :=
  match m with
  | [] => [(k, v)]
  | (k', v') :: rest => if k' = k then (k, v) :: rest else (k', v') :: mapSet rest k v

/-- The row normalisation of `executeQueryHandler` and `searchTableHandler`:
a `[]byte` value becomes the string with the same bytes, any other value is
kept. -/
def normalizeCell : Cell → Cell
  | .bytes b => .str b
  | c => c

/-- The inner loop `for i, col := range columns { … row[col] = … }`, from
index `i` on, over the scanned `values`. -/
def buildRow (values : List Cell) : Nat → List String → List (String × Cell) → List (String × Cell)
  | _, [], row => row
  | i, col :: cols, row =>
    buildRow values (i + 1) cols (mapSet row col (normalizeCell (values.getD i Cell.null)))

/-- The loop over the raw rows shared by `executeQueryHandler` and
`searchTableHandler`: the records built, or the first scan error. -/
def collectRows (columns : List String) : List (List Cell) → Except String (List (List (String × Cell)))
  | [] => .ok []
  | raw :: rest =>
    match scanRaw columns.length raw with
    | .error e => .error e
    | .ok values =>
      match collectRows columns rest with
      | .error e => .error e
      | .ok results => .ok (buildRow values 0 columns [] :: results)

/-! ## Result documents -/

/-- Document of `listSchemasHandler`. -/
structure SchemasDoc where
  schemas : List String
  page : Int
  page_size : Int
  total_count : Int
  total_pages : Int
  deriving DecidableEq

/-- Record of one table in the document of `listTablesHandler`; `none` is a
key that is not set. -/
structure TableDoc where
  name : String
  type : String
  engine : Option String
  rows : Option Int
  data_size : Option Int
  index_size : Option Int
  created_at : Option String
  updated_at : Option String
  deriving DecidableEq

/-- Document of `listTablesHandler`. -/
structure TablesDoc where
  schema : String
  tables : List TableDoc
  page : Int
  page_size : Int
  total_count : Int
  total_pages : Int
  deriving DecidableEq

/-- Document of `getTableCreateHandler`. -/
structure CreateDoc where
  schema : String
  table : String
  create_statement : String
  deriving DecidableEq

/-- Document of `executeQueryHandler`. -/
structure QueryDoc where
  columns : List String
  rows : List (List (String × Cell))
  count : Int
  deriving DecidableEq

/-- Document of `searchTableHandler`. -/
structure SearchDoc where
  schema : String
  table : String
  search_term : String
  columns : List String
  rows : List (List (String × Cell))
  count : Int
  deriving DecidableEq

/-- Record of one column in the document of `getTableStructureHandler`. -/
structure ColumnDoc where
  name : String
  type : String
  nullable : Bool
  key : String
  extra : String
  default : Option String
  comment : Option String
  deriving DecidableEq

/-- Record of one index in the document of `getTableStructureHandler`. -/
structure IndexDoc where
  name : String
  unique : Bool
  columns : List String
  deriving DecidableEq

/-- Document of `getTableStructureHandler`. -/
structure StructureDoc where
  schema : String
  table : String
  columns : List ColumnDoc
  indexes : List IndexDoc
  deriving DecidableEq

/-! ## Statement texts -/

/-- Text of the count query of `listSchemasHandler`. -/
def schemaCountQuery : String := "SELECT COUNT(*) FROM information_schema.SCHEMATA"

/-- Text of the page query of `listSchemasHandler`. -/
def schemaPageQuery : String :=
  "SELECT SCHEMA_NAME FROM information_schema.SCHEMATA ORDER BY SCHEMA_NAME LIMIT ? OFFSET ?"

/-- Text of the count query of `listTablesHandler`. -/
def tableCountQuery : String :=
  "SELECT COUNT(*) FROM information_schema.TABLES WHERE TABLE_SCHEMA = ?"

/-- Text of the page query of `listTablesHandler`. -/
def tablePageQuery : String :=
  "\n\t\tSELECT TABLE_NAME, TABLE_TYPE, ENGINE, TABLE_ROWS, \n\t\t       DATA_LENGTH, INDEX_LENGTH, CREATE_TIME, UPDATE_TIME\n\t\tFROM information_schema.TABLES \n\t\tWHERE TABLE_SCHEMA = ?\n\t\tORDER BY TABLE_NAME \n\t\tLIMIT ? OFFSET ?\n\t"

/-- Text of the column query of `searchTableHandler`. -/
def searchColQuery : String :=
  "\n\t\tSELECT COLUMN_NAME, DATA_TYPE \n\t\tFROM information_schema.COLUMNS \n\t\tWHERE TABLE_SCHEMA = ? AND TABLE_NAME = ?\n\t\tORDER BY ORDINAL_POSITION\n\t"

/-- Text of the column query of `getTableStructureHandler`. -/
def structureColQuery : String :=
  "\n\t\tSELECT COLUMN_NAME, COLUMN_TYPE, IS_NULLABLE, COLUMN_KEY, \n\t\t       COLUMN_DEFAULT, EXTRA, COLUMN_COMMENT\n\t\tFROM information_schema.COLUMNS \n\t\tWHERE TABLE_SCHEMA = ? AND TABLE_NAME = ?\n\t\tORDER BY ORDINAL_POSITION\n\t"

/-- Text of the index query of `getTableStructureHandler`. -/
def structureIndexQuery : String :=
  "\n\t\tSELECT INDEX_NAME, NON_UNIQUE, GROUP_CONCAT(COLUMN_NAME ORDER BY SEQ_IN_INDEX) as COLUMNS\n\t\tFROM information_schema.STATISTICS\n\t\tWHERE TABLE_SCHEMA = ? AND TABLE_NAME = ?\n\t\tGROUP BY INDEX_NAME, NON_UNIQUE\n\t"

/-- Error of `executeQueryHandler` for a statement that is not a read. -/
def notAllowedMsg : String :=
  "only SELECT, SHOW, DESCRIBE, and EXPLAIN statements are allowed"

/-- Error of `searchTableHandler` for a table without a text-like column. -/
def noSearchableMsg : String := "no searchable columns found in table"

/-! ## Helpers of `handlers.go` -/

/-- The list `searchableTypes` of `isSearchableType`. -/
def searchableTypes : List String :=
  ["char", "varchar", "text", "tinytext", "mediumtext", "longtext", "enum", "set"]

/-- Go `isSearchableType`. -/
def isSearchableType (lib : GoLib) (dataType : String) : Bool :=
  searchableTypes.any (fun t => strings.Contains (strings.ToLower lib dataType) t)

/-- The column loop of `searchTableHandler`: the names of all columns. -/
def columnNames : List (String × String) → List String
  | [] => []
  | (colName, _) :: rest => colName :: columnNames rest

/-- The column loop of `searchTableHandler`: one `LIKE` clause for each
column of a searchable type. -/
def searchableClauses (lib : GoLib) : List (String × String) → List String
  | [] => []
  | (colName, dataType) :: rest =>
    if isSearchableType lib dataType then
      ("`" ++ colName ++ "` LIKE ?") :: searchableClauses lib rest
    else searchableClauses lib rest

/-- The table record built by `listTablesHandler` from a scanned row. -/
def tableRecord (r : TableRow) : TableDoc :=
  { name := r.tableName, type := r.tableType, engine := r.engine, rows := r.tableRows,
    data_size := r.dataLength, index_size := r.indexLength,
    created_at := r.createTime, updated_at := r.updateTime }

/-- The column record built by `getTableStructureHandler` from a scanned row. -/
def columnRecord (r : ColumnRow) : ColumnDoc :=
  { name := r.colName, type := r.colType, nullable := r.isNullable == "YES",
    key := r.colKey, extra := r.extra, default := r.colDefault,
    comment := if r.comment ≠ "" then some r.comment else none }

/-- The index record built by `getTableStructureHandler` from a scanned row. -/
def indexRecord (r : IndexRow) : IndexDoc :=
  { name := r.indexName, unique := r.nonUnique == 0, columns := strings.Split r.columns ',' }

/-! ## The handlers -/

/-- Go `listSchemasHandler`. -/
def MySQLServer.listSchemasHandler (lib : GoLib) (ms : MySQLServer) (args : Args) :
    Run SchemasDoc :=
  let page := getIntFromArgs lib args "page" 1
  let pageSize := getIntFromArgs lib args "page_size" DefaultPageSize
  let pageSize := if pageSize > MaxPageSize then MaxPageSize else pageSize
  let offset := mulInt (subInt page 1) pageSize
  let countQuery : Stmt := ⟨schemaCountQuery, []⟩
  match ms.db.queryRowInt countQuery with
  | .error e => ⟨.error ("failed to get schema count: " ++ e), [countQuery]⟩
  | .ok totalCount =>
    let query : Stmt := ⟨schemaPageQuery, [.int pageSize, .int offset]⟩
    match ms.db.queryStrings query with
    | .error e => ⟨.error ("failed to list schemas: " ++ e), [countQuery, query]⟩
    | .ok rows =>
      match scanAll rows with
      | .error e => ⟨.error ("failed to scan schema: " ++ e), [countQuery, query]⟩
      | .ok schemas =>
        match divInt (subInt (addInt totalCount pageSize) 1) pageSize with
        | none => ⟨.panic divideByZero, [countQuery, query]⟩
        | some totalPages =>
          ⟨jsonResult
            { schemas := schemas, page := page, page_size := pageSize,
              total_count := totalCount, total_pages := totalPages },
           [countQuery, query]⟩

/-- Go `listTablesHandler`. -/
def MySQLServer.listTablesHandler (lib : GoLib) (ms : MySQLServer) (args : Args) :
    Run TablesDoc :=
  let schema := (asString args "schema").1
  let ok := (asString args "schema").2
  if !ok || schema == "" then ⟨.error "schema parameter is required", []⟩
  else
    let page := getIntFromArgs lib args "page" 1
    let pageSize := getIntFromArgs lib args "page_size" DefaultPageSize
    let pageSize := if pageSize > MaxPageSize then MaxPageSize else pageSize
    let offset := mulInt (subInt page 1) pageSize
    let countQuery : Stmt := ⟨tableCountQuery, [.str schema]⟩
    match ms.db.queryRowInt countQuery with
    | .error e => ⟨.error ("failed to get table count: " ++ e), [countQuery]⟩
    | .ok totalCount =>
      let query : Stmt := ⟨tablePageQuery, [.str schema, .int pageSize, .int offset]⟩
      match ms.db.queryTables query with
      | .error e => ⟨.error ("failed to list tables: " ++ e), [countQuery, query]⟩
      | .ok rows =>
        match scanAll rows with
        | .error e => ⟨.error ("failed to scan table info: " ++ e), [countQuery, query]⟩
        | .ok scanned =>
          match divInt (subInt (addInt totalCount pageSize) 1) pageSize with
          | none => ⟨.panic divideByZero, [countQuery, query]⟩
          | some totalPages =>
            ⟨jsonResult
              { schema := schema, tables := scanned.map tableRecord, page := page,
                page_size := pageSize, total_count := totalCount,
                total_pages := totalPages },
             [countQuery, query]⟩

/-- Go `getTableCreateHandler`. -/
def MySQLServer.getTableCreateHandler (ms : MySQLServer) (args : Args) : Run CreateDoc :=
  let schema := (asString args "schema").1
  let ok := (asString args "schema").2
  if !ok || schema == "" then ⟨.error "schema parameter is required", []⟩
  else
    let table := (asString args "table").1
    let ok := (asString args "table").2
    if !ok || table == "" then ⟨.error "table parameter is required", []⟩
    else
      let query : Stmt := ⟨"SHOW CREATE TABLE `" ++ schema ++ "`.`" ++ table ++ "`", []⟩
      match ms.db.queryRowStrings query with
      | .error e => ⟨.error ("failed to get create statement: " ++ e), [query]⟩
      | .ok (_, createStmt) =>
        ⟨jsonResult { schema := schema, table := table, create_statement := createStmt },
         [query]⟩

/-- Go `executeQueryHandler`. -/
def MySQLServer.executeQueryHandler (lib : GoLib) (ms : MySQLServer) (args : Args) :
    Run QueryDoc :=
  let query := (asString args "query").1
  let ok := (asString args "query").2
  if !ok || query == "" then ⟨.error "query parameter is required", []⟩
  else
    let trimmedQuery := strings.TrimSpace (strings.ToUpper lib query)
    if !strings.HasPrefix trimmedQuery "SELECT" && !strings.HasPrefix trimmedQuery "SHOW" &&
        !strings.HasPrefix trimmedQuery "DESCRIBE" && !strings.HasPrefix trimmedQuery "EXPLAIN"
    then ⟨.error notAllowedMsg, []⟩
    else
      let limit := getIntFromArgs lib args "limit" 100
      let query :=
        if strings.HasPrefix trimmedQuery "SELECT" && !strings.Contains trimmedQuery "LIMIT"
        then query ++ " LIMIT " ++ fmtInt limit
        else query
      let stmt : Stmt := ⟨query, []⟩
      match ms.db.queryRaw stmt with
      | .error e => ⟨.error ("failed to execute query: " ++ e), [stmt]⟩
      | .ok rows =>
        match rows.columns with
        | .error e => ⟨.error ("failed to get columns: " ++ e), [stmt]⟩
        | .ok columns =>
          match collectRows columns rows.rows with
          | .error e => ⟨.error ("failed to scan row: " ++ e), [stmt]⟩
          | .ok results =>
            ⟨jsonResult { columns := columns, rows := results, count := results.length },
             [stmt]⟩

/-- Go `searchTableHandler`. -/
def MySQLServer.searchTableHandler (lib : GoLib) (ms : MySQLServer) (args : Args) :
    Run SearchDoc :=
  let schema := (asString args "schema").1
  let ok := (asString args "schema").2
  if !ok || schema == "" then ⟨.error "schema parameter is required", []⟩
  else
    let table := (asString args "table").1
    let ok := (asString args "table").2
    if !ok || table == "" then ⟨.error "table parameter is required", []⟩
    else
      let searchTerm := (asString args "search_term").1
      let ok := (asString args "search_term").2
      if !ok || searchTerm == "" then ⟨.error "search_term parameter is required", []⟩
      else
        let limit := getIntFromArgs lib args "limit" 100
        let colStmt : Stmt := ⟨searchColQuery, [.str schema, .str table]⟩
        match ms.db.queryNameTypes colStmt with
        | .error e => ⟨.error ("failed to get columns: " ++ e), [colStmt]⟩
        | .ok colRows =>
          match scanAll colRows with
          | .error e => ⟨.error ("failed to scan column: " ++ e), [colStmt]⟩
          | .ok cols =>
            let columns := columnNames cols
            let searchableColumns := searchableClauses lib cols
            if searchableColumns.length = 0 then ⟨.error noSearchableMsg, [colStmt]⟩
            else
              let whereClause := strings.Join searchableColumns " OR "
              let searchQuery :=
                "SELECT * FROM `" ++ schema ++ "`.`" ++ table ++ "` WHERE " ++ whereClause ++
                  " LIMIT " ++ fmtInt limit
              let searchPattern := "%" ++ searchTerm ++ "%"
              let params := List.replicate searchableColumns.length (SqlArg.str searchPattern)
              let stmt : Stmt := ⟨searchQuery, params⟩
              match ms.db.queryRaw stmt with
              | .error e => ⟨.error ("failed to search table: " ++ e), [colStmt, stmt]⟩
              | .ok rows =>
                match collectRows columns rows.rows with
                | .error e => ⟨.error ("failed to scan row: " ++ e), [colStmt, stmt]⟩
                | .ok results =>
                  ⟨jsonResult
                    { schema := schema, table := table, search_term := searchTerm,
                      columns := columns, rows := results, count := results.length },
                   [colStmt, stmt]⟩

/-- Go `getTableStructureHandler`. -/
def MySQLServer.getTableStructureHandler (ms : MySQLServer) (args : Args) :
    Run StructureDoc :=
  let schema := (asString args "schema").1
  let ok := (asString args "schema").2
  if !ok || schema == "" then ⟨.error "schema parameter is required", []⟩
  else
    let table := (asString args "table").1
    let ok := (asString args "table").2
    if !ok || table == "" then ⟨.error "table parameter is required", []⟩
    else
      let colStmt : Stmt := ⟨structureColQuery, [.str schema, .str table]⟩
      match ms.db.queryColumns colStmt with
      | .error e => ⟨.error ("failed to get columns: " ++ e), [colStmt]⟩
      | .ok rows =>
        match scanAll rows with
        | .error e => ⟨.error ("failed to scan column: " ++ e), [colStmt]⟩
        | .ok scanned =>
          let indexStmt : Stmt := ⟨structureIndexQuery, [.str schema, .str table]⟩
          match ms.db.queryIndexes indexStmt with
          | .error e => ⟨.error ("failed to get indexes: " ++ e), [colStmt, indexStmt]⟩
          | .ok indexRows =>
            match scanAll indexRows with
            | .error e => ⟨.error ("failed to scan index: " ++ e), [colStmt, indexStmt]⟩
            | .ok scannedIdx =>
              ⟨jsonResult
                { schema := schema, table := table, columns := scanned.map columnRecord,
                  indexes := scannedIdx.map indexRecord },
               [colStmt, indexStmt]⟩

/-! ## The tool registry (`CreateMCPServerWithTools`) -/

/-- The tools registered by `CreateMCPServerWithTools`. -/
inductive Tool where
  | list_schemas
  | list_tables
  | get_table_create
  | execute_query
  | search_table
  | get_table_structure
  deriving DecidableEq

/-- The string arguments declared `mcp.Required()` for each tool, in the
order of their declaration. -/
def requiredArgs : Tool → List String
  | .list_schemas => []
  | .list_tables => ["schema"]
  | .get_table_create => ["schema", "table"]
  | .execute_query => ["query"]
  | .search_table => ["schema", "table", "search_term"]
  | .get_table_structure => ["schema", "table"]

/-- A result document of any of the tools. -/
inductive Doc where
  | schemas (d : SchemasDoc)
  | tables (d : TablesDoc)
  | create (d : CreateDoc)
  | query (d : QueryDoc)
  | search (d : SearchDoc)
  | structure (d : StructureDoc)

/-- A run seen as a run with a document of any tool. -/
def Run.toDoc {α : Type} (f : α → Doc) (r : Run α) : Run Doc :=
  match r.outcome with
  | .result d => ⟨.result (f d), r.issued⟩
  | .error m => ⟨.error m, r.issued⟩
  | .panic m => ⟨.panic m, r.issued⟩

/-- The handler that `CreateMCPServerWithTools` registers for each tool. -/
def MySQLServer.callTool (lib : GoLib) (ms : MySQLServer) (tool : Tool) (args : Args) :
    Run Doc :=
  match tool with
  | .list_schemas => (ms.listSchemasHandler lib args).toDoc Doc.schemas
  | .list_tables => (ms.listTablesHandler lib args).toDoc Doc.tables
  | .get_table_create => (ms.getTableCreateHandler args).toDoc Doc.create
  | .execute_query => (ms.executeQueryHandler lib args).toDoc Doc.query
  | .search_table => (ms.searchTableHandler lib args).toDoc Doc.search
  | .get_table_structure => (ms.getTableStructureHandler args).toDoc Doc.structure

/-! ## Observations on runs, and fixtures for the examples -/

/-- The argument `key` is requested as the whole number `n`, either as a Go
`int` or as a `float64` holding `n`. -/
def Requested (args : Args) (key : String) (n : Int) : Prop :=
  args key = some (ArgVal.int n) ∨ args key = some (ArgVal.float (n : Rat))

/-- The argument `key` carries no number: it is absent or of another kind. -/
def NoNumber (args : Args) (key : String) : Prop :=
  ∀ a, args key = some a → (∀ v, a ≠ ArgVal.float v) ∧ (∀ n, a ≠ ArgVal.int n)

/-- The messages of the validation errors for a missing or empty required
argument and for a statement kind that is not allowed. -/
def argumentErrors : List String :=
  ["schema parameter is required", "table parameter is required",
   "query parameter is required", "search_term parameter is required", notAllowedMsg]

/-- The messages of all validation errors: the argument errors and the error
for a table without searchable columns. -/
def validationErrors : List String := argumentErrors ++ [noSearchableMsg]

/-- A library for the examples: no case mapping outside ASCII, and the
smallest `int` for an out-of-range conversion (what Go gives on amd64). -/
def sampleLib : GoLib :=
  { upperCase := fun c => c, lowerCase := fun c => c, floatOutOfRange := fun _ => minInt }

/-- The catalog as a list of schema names in name order: the count query
answers its length, and the page query with `LIMIT n OFFSET k` answers the
`n` names after the first `k`.  Every other statement fails. -/
def catalogDB (names : List String) : DB :=
  { queryRowInt := fun s =>
      if s = ⟨schemaCountQuery, []⟩ then .ok names.length else .error "unexpected statement"
    queryRowStrings := fun _ => .error "unexpected statement"
    queryStrings := fun s =>
      match s.args with
      | [.int n, .int k] =>
        if s.text = schemaPageQuery ∧ 0 ≤ n ∧ 0 ≤ k then
          .ok (((names.drop k.toNat).take n.toNat).map Except.ok)
        else .error "unexpected statement"
      | _ => .error "unexpected statement"
    queryTables := fun _ => .error "unexpected statement"
    queryNameTypes := fun _ => .error "unexpected statement"
    queryColumns := fun _ => .error "unexpected statement"
    queryIndexes := fun _ => .error "unexpected statement"
    queryRaw := fun _ => .error "unexpected statement" }

/-- A database for the examples: it answers every count query with `count`,
every column listing with `cols`, and every other query with no rows. -/
def stubDB (count : Int) (cols : List (String × String)) : DB :=
  { queryRowInt := fun _ => .ok count
    queryRowStrings := fun _ => .ok ("", "")
    queryStrings := fun _ => .ok []
    queryTables := fun _ => .ok []
    queryNameTypes := fun _ => .ok (cols.map Except.ok)
    queryColumns := fun _ => .ok []
    queryIndexes := fun _ => .ok []
    queryRaw := fun _ => .ok ⟨.ok (columnNames cols), []⟩ }

/-- An argument map given by the list of its entries. -/
def argsOf (entries : List (String × ArgVal)) : Args :=
  fun key => (entries.find? (fun e => e.1 == key)).map Prod.snd

/-- The argument `key` is present as a non-empty string. -/
def Present (args : Args) (key : String) : Prop :=
  ∃ s, s ≠ "" ∧ args key = some (ArgVal.str s)

/-- The trace discipline of validation errors: a run that ends with an
argument error has sent nothing, and a run that ends with the error for a
table without searchable columns has sent exactly the statements `col`. -/
def Traced {α : Type} (r : Run α) (col : List Stmt) : Prop :=
  ∀ msg, r.outcome = Outcome.error msg →
    (msg ∈ argumentErrors → r.issued = []) ∧ (msg = noSearchableMsg → r.issued = col)

/-- The page size in effect in a run of `listSchemasHandler` is `ps`: once
the count query is answered, the page query is sent with `ps` bound to
`LIMIT`, and a returned document echoes `ps` as `page_size`. -/
def SchemasPageSize (lib : GoLib) (ms : MySQLServer) (args : Args) (ps : Int) : Prop :=
  (∀ total, ms.db.queryRowInt ⟨schemaCountQuery, []⟩ = .ok total →
    ∃ offset, (ms.listSchemasHandler lib args).issued =
      [⟨schemaCountQuery, []⟩, ⟨schemaPageQuery, [.int ps, .int offset]⟩]) ∧
  (∀ doc, (ms.listSchemasHandler lib args).outcome = Outcome.result doc → doc.page_size = ps)

/-- The page size in effect in a run of `listTablesHandler` is `ps`: for a
valid `schema` argument, once the count query is answered, the page query is
sent with `ps` bound to `LIMIT`, and a returned document echoes `ps` as
`page_size`. -/
def TablesPageSize (lib : GoLib) (ms : MySQLServer) (args : Args) (ps : Int) : Prop :=
  (∀ schema total, args "schema" = some (ArgVal.str schema) → schema ≠ "" →
    ms.db.queryRowInt ⟨tableCountQuery, [.str schema]⟩ = .ok total →
    ∃ offset, (ms.listTablesHandler lib args).issued =
      [⟨tableCountQuery, [.str schema]⟩,
       ⟨tablePageQuery, [.str schema, .int ps, .int offset]⟩]) ∧
  (∀ doc, (ms.listTablesHandler lib args).outcome = Outcome.result doc → doc.page_size = ps)

/-- A database for the examples: the index listing of every table is
`indexes`, and every other listing is empty. -/
def indexDB (indexes : List IndexRow) : DB :=
  { queryRowInt := fun _ => .ok 0
    queryRowStrings := fun _ => .ok ("", "")
    queryStrings := fun _ => .ok []
    queryTables := fun _ => .ok []
    queryNameTypes := fun _ => .ok []
    queryColumns := fun _ => .ok []
    queryIndexes := fun _ => .ok (indexes.map Except.ok)
    queryRaw := fun _ => .ok ⟨.ok [], []⟩ }

/-- The number that a string of decimal digits denotes, read from the left. -/
def decimalValue (digits : List Char) : Nat :=
  digits.foldl (fun acc c => 10 * acc + (c.toNat - '0'.toNat)) 0

/-- Whether a character is one of the decimal digits `0` to `9`. -/
def isDecimalDigit (c : Char) : Bool :=
  '0'.toNat ≤ c.toNat && c.toNat ≤ '9'.toNat

/-! ## Lemmas on strings and error messages -/

theorem head_append (a b : String) (c : Char) (h : a.data.head? = some c) :
    (a ++ b).data.head? = some c := by
  rw [String.data_append]
  cases ha : a.data with
  | nil => rw [ha] at h; simp at h
  | cons x xs => rw [ha] at h; simpa using h

/-- An error that wraps a database failure (its message starts with
"failed to") differs from every message that does not start with `f`. -/
theorem failed_ne (pre e msg : String) (hp : pre.data.head? = some 'f')
    (hm : msg.data.head? ≠ some 'f') : pre ++ e ≠ msg := by
  intro h
  apply hm
  rw [← h]
  exact head_append pre e 'f' hp

theorem error_failed_ne {α : Type} (pre e msg : String) (hp : pre.data.head? = some 'f')
    (hm : msg.data.head? ≠ some 'f') :
    (Outcome.error (pre ++ e) : Outcome α) ≠ Outcome.error msg := by
  intro h
  injection h with h
  exact failed_ne pre e msg hp hm h

theorem containsList_iff (sub l : List Char) :
    strings.containsList sub l = true ↔ sub <:+: l := by
  induction l with
  | nil =>
    simp [strings.containsList, List.isPrefixOf_iff_prefix]
  | cons c cs ih =>
    simp only [strings.containsList, Bool.or_eq_true, ih, List.infix_cons_iff]
    simp [List.isPrefixOf_iff_prefix]

theorem infix_dropWhile (p : Char → Bool) (sub l : List Char) (hne : sub ≠ [])
    (hp : ∀ c ∈ sub, p c = false) (h : sub <:+: l) : sub <:+: l.dropWhile p := by
  induction l with
  | nil => simpa using h
  | cons a as ih =>
    rw [List.dropWhile_cons]
    split
    · rename_i ha
      rcases List.infix_cons_iff.mp h with hpre | hin
      · exfalso
        cases sub with
        | nil => exact hne rfl
        | cons b bs =>
          have hb : b = a := by
            obtain ⟨t, ht⟩ := hpre
            simp at ht
            exact ht.1
          have := hp b (by simp)
          rw [hb, ha] at this
          exact Bool.noConfusion this
      · exact ih hin
    · exact h

theorem infix_trim (p : Char → Bool) (sub l : List Char) (hne : sub ≠ [])
    (hp : ∀ c ∈ sub, p c = false) :
    sub <:+: ((l.dropWhile p).reverse.dropWhile p).reverse ↔ sub <:+: l := by
  constructor
  · intro h
    have h1 : sub.reverse <:+: (l.dropWhile p).reverse.dropWhile p := by
      rw [← List.reverse_infix]; simpa using h
    have h2 : sub.reverse <:+: (l.dropWhile p).reverse :=
      h1.trans (List.dropWhile_suffix p).isInfix
    have h3 : sub <:+: l.dropWhile p := by
      rw [← List.reverse_infix]; exact h2
    exact h3.trans (List.dropWhile_suffix p).isInfix
  · intro h
    have h1 := infix_dropWhile p sub l hne hp h
    have h2 : sub.reverse <:+: (l.dropWhile p).reverse := List.reverse_infix.mpr h1
    have h3 := infix_dropWhile p sub.reverse _ (by simpa using hne)
      (by intro c hc; exact hp c (by simpa using hc)) h2
    rw [← List.reverse_infix]; simpa using h3

theorem contains_trimSpace_limit (s : String) :
    strings.Contains (strings.TrimSpace s) "LIMIT" = strings.Contains s "LIMIT" := by
  have key : strings.Contains (strings.TrimSpace s) "LIMIT" = true ↔
      strings.Contains s "LIMIT" = true := by
    unfold strings.Contains strings.TrimSpace
    rw [containsList_iff, containsList_iff]
    exact infix_trim unicode.IsSpace _ _ (by decide) (by decide)
  cases h1 : strings.Contains (strings.TrimSpace s) "LIMIT" <;>
    cases h2 : strings.Contains s "LIMIT" <;> simp_all


/-! ## Lemmas on integers and number arguments -/

theorem wrapInt_id (z : Int) (h1 : minInt ≤ z) (h2 : z ≤ maxInt) : wrapInt z = z := by
  unfold wrapInt
  unfold minInt at h1
  unfold maxInt at h2
  omega

theorem floatToInt_intCast (lib : GoLib) (n : Int) (h1 : minInt ≤ n) (h2 : n ≤ maxInt) :
    floatToInt lib (n : Rat) = n := by
  unfold floatToInt
  simp [h1, h2]

theorem getInt_requested (lib : GoLib) (args : Args) (key : String) (d n : Int)
    (h1 : minInt ≤ n) (h2 : n ≤ maxInt) (h : Requested args key n) :
    getIntFromArgs lib args key d = n := by
  rcases h with h | h
  · simp [getIntFromArgs, h]
  · simp [getIntFromArgs, h, floatToInt_intCast lib n h1 h2]

theorem getInt_noNumber (lib : GoLib) (args : Args) (key : String) (d : Int)
    (h : NoNumber args key) : getIntFromArgs lib args key d = d := by
  unfold getIntFromArgs
  cases ha : args key with
  | none => rfl
  | some a =>
    cases a with
    | float v => exact absurd rfl ((h _ ha).1 v)
    | int n => exact absurd rfl ((h _ ha).2 n)
    | _ => rfl

/-- Go `int(v)` for a `float64` whose truncation does not fit an `int`: the
result that the implementation gives. -/
theorem floatToInt_out_of_range (lib : GoLib) (v : Rat)
    (h : v ≤ -(2 ^ 63) - 1 ∨ 2 ^ 63 ≤ v) : floatToInt lib v = lib.floatOutOfRange v := by
  have hmin : minInt = -9223372036854775808 := by decide
  have hmax : maxInt = 9223372036854775807 := by decide
  unfold floatToInt
  simp only []
  rw [if_neg]
  intro hr
  rcases h with h | h
  · have hnum : 0 ≤ -v.num := by
      have : v.num ≤ 0 := Rat.num_nonpos.mpr (by linarith)
      omega
    have hfl : Int.tdiv v.num (v.den : Int) = ⌈v⌉ := by
      have e : v.num = -(-v.num) := by omega
      rw [e, Int.neg_tdiv, Int.tdiv_eq_ediv hnum (by exact_mod_cast Nat.zero_le _)]
      have hf : ⌊-v⌋ = (-v).num / ((-v).den : Int) := Rat.floor_def
      rw [Rat.neg_num, Rat.neg_den] at hf
      rw [← hf, Int.floor_neg, neg_neg]
    have hc : ⌈v⌉ ≤ -(2 ^ 63) - 1 := Int.ceil_le.mpr (by exact_mod_cast h)
    rw [hfl] at hr
    omega
  · have hfl : Int.tdiv v.num (v.den : Int) = ⌊v⌋ := by
      rw [Int.tdiv_eq_ediv (Rat.num_nonneg.mpr (by linarith))
        (by exact_mod_cast Nat.zero_le _)]
      exact Rat.floor_def.symm
    have hc : (2 : Int) ^ 63 ≤ ⌊v⌋ := Int.le_floor.mpr (by exact_mod_cast h)
    rw [hfl] at hr
    omega

theorem digitChar_value (k : Nat) (h : k < 10) :
    (Nat.digitChar k).toNat - '0'.toNat = k ∧ isDecimalDigit (Nat.digitChar k) = true ∧
      (k ≠ 0 → Nat.digitChar k ≠ '0') := by
  interval_cases k <;> decide

theorem toDigitsCore_value (fuel : Nat) :
    ∀ (n : Nat) (ds : List Char), n < fuel →
      (Nat.toDigitsCore 10 fuel n ds).foldl
          (fun acc c => 10 * acc + (c.toNat - '0'.toNat)) 0 =
        ds.foldl (fun acc c => 10 * acc + (c.toNat - '0'.toNat)) n := by
  induction fuel with
  | zero => intro n ds h; omega
  | succ f ih =>
    intro n ds h
    have hd := (digitChar_value (n % 10) (Nat.mod_lt _ (by decide))).1
    simp only [Nat.toDigitsCore]
    split
    · rename_i h0
      simp only [List.foldl_cons, hd]
      congr 1
      omega
    · rename_i h0
      rw [ih (n / 10) _ (by omega)]
      simp only [List.foldl_cons, hd]
      congr 1
      omega

theorem toDigitsCore_digits (fuel : Nat) :
    ∀ (n : Nat) (ds : List Char), (∀ c ∈ ds, isDecimalDigit c = true) →
      ∀ c ∈ Nat.toDigitsCore 10 fuel n ds, isDecimalDigit c = true := by
  induction fuel with
  | zero => intro n ds h; simpa [Nat.toDigitsCore] using h
  | succ f ih =>
    intro n ds h
    have hd := (digitChar_value (n % 10) (Nat.mod_lt _ (by decide))).2.1
    simp only [Nat.toDigitsCore]
    split
    · intro c hc
      rcases List.mem_cons.mp hc with rfl | hc
      · exact hd
      · exact h c hc
    · apply ih
      intro c hc
      rcases List.mem_cons.mp hc with rfl | hc
      · exact hd
      · exact h c hc

theorem toDigitsCore_head (fuel : Nat) :
    ∀ (n : Nat) (ds : List Char), 0 < n → n < fuel →
      (Nat.toDigitsCore 10 fuel n ds).head? ≠ some '0' := by
  induction fuel with
  | zero => intro n ds _ h; omega
  | succ f ih =>
    intro n ds h0 h
    simp only [Nat.toDigitsCore]
    split
    · rename_i hq
      have hk : n % 10 ≠ 0 := by omega
      have hd := (digitChar_value (n % 10) (Nat.mod_lt _ (by decide))).2.2 hk
      simpa using hd
    · rename_i hq
      exact ih (n / 10) _ (by omega) (by omega)

/-- `fmtInt` writes the decimal numeral of a non-negative integer. -/
theorem fmtInt_nonneg (n : Int) (h : 0 ≤ n) :
    (decimalValue (fmtInt n).data : Int) = n ∧
      (∀ c ∈ (fmtInt n).data, isDecimalDigit c = true) ∧
      (n ≠ 0 → (fmtInt n).data.head? ≠ some '0') := by
  have hf : fmtInt n = Nat.repr n.toNat := by
    unfold fmtInt
    rw [if_neg (by omega)]
  rw [hf]
  have hdata : (Nat.repr n.toNat).data = Nat.toDigitsCore 10 (n.toNat + 1) n.toNat [] := rfl
  rw [hdata]
  refine ⟨?_, ?_, ?_⟩
  · unfold decimalValue
    rw [toDigitsCore_value _ _ _ (by omega)]
    simp only [List.foldl_nil]
    omega
  · exact toDigitsCore_digits _ _ _ (by intro c hc; simp at hc)
  · intro hn
    exact toDigitsCore_head _ _ _ (by omega) (by omega)

/-- `fmtInt` writes a negative integer as `-` and the numeral of its opposite. -/
theorem fmtInt_neg (n : Int) (h : n < 0) : fmtInt n = "-" ++ fmtInt (-n) := by
  unfold fmtInt
  rw [if_pos h, if_neg (by omega)]
  congr 2
  omega


/-- Go `int(v)` for a non-negative `float64` below 2^63: the floor. -/
theorem floatToInt_nonneg (lib : GoLib) (v : Rat) (h0 : 0 ≤ v) (h1 : v < 2 ^ 63) :
    floatToInt lib v = ⌊v⌋ := by
  have hmin : minInt = -9223372036854775808 := by decide
  have hmax : maxInt = 9223372036854775807 := by decide
  have hfl : Int.tdiv v.num (v.den : Int) = ⌊v⌋ := by
    rw [Int.tdiv_eq_ediv (Rat.num_nonneg.mpr h0) (by exact_mod_cast Nat.zero_le _)]
    exact Rat.floor_def.symm
  have hlo : 0 ≤ ⌊v⌋ := Int.floor_nonneg.mpr h0
  have hhi : ⌊v⌋ < 2 ^ 63 := Int.floor_lt.mpr (by exact_mod_cast h1)
  unfold floatToInt
  simp only [hfl]
  rw [if_pos ⟨by omega, by omega⟩]

/-- Go `int(v)` for a `float64` that is at most 0 and above -2^63 - 1: the
ceiling. -/
theorem floatToInt_nonpos (lib : GoLib) (v : Rat) (h0 : v ≤ 0) (h1 : -(2 ^ 63) - 1 < v) :
    floatToInt lib v = ⌈v⌉ := by
  have hmin : minInt = -9223372036854775808 := by decide
  have hmax : maxInt = 9223372036854775807 := by decide
  have hnum : 0 ≤ -v.num := by
    have : v.num ≤ 0 := Rat.num_nonpos.mpr h0
    omega
  have hfl : Int.tdiv v.num (v.den : Int) = ⌈v⌉ := by
    have e : v.num = -(-v.num) := by omega
    rw [e, Int.neg_tdiv, Int.tdiv_eq_ediv hnum (by exact_mod_cast Nat.zero_le _)]
    have hf : ⌊-v⌋ = (-v).num / ((-v).den : Int) := Rat.floor_def
    rw [Rat.neg_num, Rat.neg_den] at hf
    rw [← hf, Int.floor_neg, neg_neg]
  have hhi : ⌈v⌉ ≤ 0 := Int.ceil_le.mpr (by exact_mod_cast h0)
  have hlo : -(2 ^ 63) - 1 < ⌈v⌉ := Int.lt_ceil.mpr (by exact_mod_cast h1)
  unfold floatToInt
  simp only [hfl]
  rw [if_pos ⟨by omega, by omega⟩]

/-! ## `execute_query`: the statement guard and the appended `LIMIT` -/

/-- What `executeQueryHandler` sends when the guard lets the query through:
one statement without bound arguments. -/
theorem executeQuery_issued (lib : GoLib) (ms : MySQLServer) (args : Args) (q : String)
    (hq : args "query" = some (ArgVal.str q)) (hne : q ≠ "")
    (hpass : strings.HasPrefix (strings.TrimSpace (strings.ToUpper lib q)) "SELECT" = true ∨
      strings.HasPrefix (strings.TrimSpace (strings.ToUpper lib q)) "SHOW" = true ∨
      strings.HasPrefix (strings.TrimSpace (strings.ToUpper lib q)) "DESCRIBE" = true ∨
      strings.HasPrefix (strings.TrimSpace (strings.ToUpper lib q)) "EXPLAIN" = true) :
    (ms.executeQueryHandler lib args).issued =
      [⟨if (strings.HasPrefix (strings.TrimSpace (strings.ToUpper lib q)) "SELECT" &&
            !strings.Contains (strings.TrimSpace (strings.ToUpper lib q)) "LIMIT") = true
          then q ++ " LIMIT " ++ fmtInt (getIntFromArgs lib args "limit" 100) else q, []⟩] := by
  unfold MySQLServer.executeQueryHandler
  simp only [asString, hq]
  simp only [Bool.not_true, Bool.false_or, beq_iff_eq, hne, if_false]
  rw [if_neg]
  · split
    · rfl
    · split
      · rfl
      · split <;> rfl
  · simp only [Bool.and_eq_true, Bool.not_eq_true', not_and, Bool.not_eq_false]
    rcases hpass with h | h | h | h <;> simp [h]

/-- C1: for a non-empty query `q`, `execute_query` ends with the error "only
SELECT, SHOW, DESCRIBE, and EXPLAIN statements are allowed" exactly when the
upper-cased, trimmed text of `q` starts with none of the four keywords; the
lower-case, mixed-case and indented variants pass, `DELETE` and `update` are
rejected. -/
theorem c1_statement_guard (lib : GoLib) (ms : MySQLServer) (args : Args) (q : String)
    (hq : args "query" = some (ArgVal.str q)) (hne : q ≠ "") :
    ((ms.executeQueryHandler lib args).outcome = Outcome.error notAllowedMsg ↔
      ¬ (strings.HasPrefix (strings.TrimSpace (strings.ToUpper lib q)) "SELECT" = true ∨
         strings.HasPrefix (strings.TrimSpace (strings.ToUpper lib q)) "SHOW" = true ∨
         strings.HasPrefix (strings.TrimSpace (strings.ToUpper lib q)) "DESCRIBE" = true ∨
         strings.HasPrefix (strings.TrimSpace (strings.ToUpper lib q)) "EXPLAIN" = true)) ∧
    (q = "select 1" ∨ q = "  SeLeCt 1" ∨ q = "\tshow tables" →
      (ms.executeQueryHandler lib args).outcome ≠ Outcome.error notAllowedMsg) ∧
    (q = "DELETE FROM t" ∨ q = "  update t set a=1" →
      (ms.executeQueryHandler lib args).outcome = Outcome.error notAllowedMsg) := by
  have main : ((ms.executeQueryHandler lib args).outcome = Outcome.error notAllowedMsg ↔
      ¬ (strings.HasPrefix (strings.TrimSpace (strings.ToUpper lib q)) "SELECT" = true ∨
         strings.HasPrefix (strings.TrimSpace (strings.ToUpper lib q)) "SHOW" = true ∨
         strings.HasPrefix (strings.TrimSpace (strings.ToUpper lib q)) "DESCRIBE" = true ∨
         strings.HasPrefix (strings.TrimSpace (strings.ToUpper lib q)) "EXPLAIN" = true)) := by
    unfold MySQLServer.executeQueryHandler
    simp only [asString, hq]
    simp only [Bool.not_true, Bool.false_or, beq_iff_eq, hne, if_false]
    split
    · rename_i hg
      simp only [Bool.and_eq_true, Bool.not_eq_true', Bool.not_eq_eq_eq_not, Bool.not_true] at hg
      simp [hg]
    · rename_i hg
      simp only [Bool.and_eq_true, Bool.not_eq_true', Bool.not_eq_eq_eq_not, Bool.not_true] at hg
      constructor
      · intro h
        exfalso
        revert h
        split
        · exact error_failed_ne _ _ _ rfl (by decide)
        · split
          · exact error_failed_ne _ _ _ rfl (by decide)
          · split
            · exact error_failed_ne _ _ _ rfl (by decide)
            · simp [jsonResult]
      · intro h
        exfalso
        apply hg
        simp only [not_or, Bool.not_eq_true] at h
        simp [h]
  refine ⟨main, ?_, ?_⟩
  · intro hx hc
    apply main.mp hc
    rcases hx with h | h | h
    · subst h; exact Or.inl rfl
    · subst h; exact Or.inl rfl
    · subst h; exact Or.inr (Or.inl rfl)
  · intro hx
    rw [main]
    rcases hx with h | h
    · subst h
      intro hc
      rcases hc with h | h | h | h <;> exact Bool.noConfusion h
    · subst h
      intro hc
      rcases hc with h | h | h | h <;> exact Bool.noConfusion h

/-- C1, at the query `  update t set a=1` sent to a database that would
answer anything. -/
theorem c1_statement_guard_witness :
    argsOf [("query", ArgVal.str "  update t set a=1")] "query" =
        some (ArgVal.str "  update t set a=1") ∧
      (MySQLServer.executeQueryHandler sampleLib ⟨stubDB 0 []⟩
        (argsOf [("query", ArgVal.str "  update t set a=1")])).outcome =
        Outcome.error notAllowedMsg :=
  ⟨rfl, (c1_statement_guard sampleLib ⟨stubDB 0 []⟩
    (argsOf [("query", ArgVal.str "  update t set a=1")]) "  update t set a=1" rfl
    (by decide)).2.2 (Or.inr rfl)⟩

/-- C2 as stated fails: with the limit 1e19, sent as a JSON number, the
number appended to `SELECT * FROM t` is the result of the out-of-range
conversion to `int`, here -9223372036854775808, and not the decimal form of
the limit. -/
theorem c2_limit_out_of_range :
    (MySQLServer.executeQueryHandler sampleLib ⟨stubDB 0 []⟩
        (argsOf [("query", ArgVal.str "SELECT * FROM t"),
          ("limit", ArgVal.float 10000000000000000000)])).issued =
        [⟨"SELECT * FROM t LIMIT -9223372036854775808", []⟩] ∧
      (MySQLServer.executeQueryHandler sampleLib ⟨stubDB 0 []⟩
        (argsOf [("query", ArgVal.str "SELECT * FROM t"),
          ("limit", ArgVal.float 10000000000000000000)])).issued ≠
        [⟨"SELECT * FROM t LIMIT 10000000000000000000", []⟩] := by
  have h : (MySQLServer.executeQueryHandler sampleLib ⟨stubDB 0 []⟩
        (argsOf [("query", ArgVal.str "SELECT * FROM t"),
          ("limit", ArgVal.float 10000000000000000000)])).issued =
        [⟨"SELECT * FROM t LIMIT -9223372036854775808", []⟩] := rfl
  refine ⟨h, ?_⟩
  rw [h]
  decide

/-- C2, amended: for a query `q` that passes the guard, the one statement
sent is `q ++ " LIMIT " ++` the decimal form of the limit `L` when the
upper-cased trimmed `q` starts with `SELECT` and the upper-cased `q` does not
contain `LIMIT`, and is `q` itself in every other case.  `L` is 100 when the
argument is absent or not a number, the argument itself when it is a Go
`int`, a `float64` argument `v` truncated toward zero when
-2^63 - 1 < v < 2^63, and the result of the implementation-dependent
conversion to `int` for a `float64` outside that range.  The decimal form of a non-negative `L` is the string
of decimal digits, without a leading zero, that denotes `L`; that of a
negative `L` is `-` followed by the decimal form of `-L`. -/
theorem c2_limit_appended (lib : GoLib) (ms : MySQLServer) (args : Args) (q : String)
    (hq : args "query" = some (ArgVal.str q)) (hne : q ≠ "")
    (hpass : strings.HasPrefix (strings.TrimSpace (strings.ToUpper lib q)) "SELECT" = true ∨
      strings.HasPrefix (strings.TrimSpace (strings.ToUpper lib q)) "SHOW" = true ∨
      strings.HasPrefix (strings.TrimSpace (strings.ToUpper lib q)) "DESCRIBE" = true ∨
      strings.HasPrefix (strings.TrimSpace (strings.ToUpper lib q)) "EXPLAIN" = true) :
    (ms.executeQueryHandler lib args).issued =
        [⟨if strings.HasPrefix (strings.TrimSpace (strings.ToUpper lib q)) "SELECT" = true ∧
              strings.Contains (strings.ToUpper lib q) "LIMIT" = false
            then q ++ " LIMIT " ++ fmtInt (getIntFromArgs lib args "limit" 100) else q, []⟩] ∧
      (args "limit" = none → getIntFromArgs lib args "limit" 100 = 100) ∧
      (NoNumber args "limit" → getIntFromArgs lib args "limit" 100 = 100) ∧
      (∀ n : Int, args "limit" = some (ArgVal.int n) →
        getIntFromArgs lib args "limit" 100 = n) ∧
      (∀ v : Rat, args "limit" = some (ArgVal.float v) → 0 ≤ v → v < 2 ^ 63 →
        getIntFromArgs lib args "limit" 100 = ⌊v⌋) ∧
      (∀ v : Rat, args "limit" = some (ArgVal.float v) → v ≤ 0 → -(2 ^ 63) - 1 < v →
        getIntFromArgs lib args "limit" 100 = ⌈v⌉) ∧
      (∀ v : Rat, args "limit" = some (ArgVal.float v) → (v ≤ -(2 ^ 63) - 1 ∨ 2 ^ 63 ≤ v) →
        getIntFromArgs lib args "limit" 100 = lib.floatOutOfRange v) ∧
      (∀ n : Int, 0 ≤ n →
        (decimalValue (fmtInt n).data : Int) = n ∧
          (∀ c ∈ (fmtInt n).data, isDecimalDigit c = true) ∧
          (n ≠ 0 → (fmtInt n).data.head? ≠ some '0')) ∧
      (∀ n : Int, n < 0 → fmtInt n = "-" ++ fmtInt (-n)) ∧
      (q = "SELECT * FROM t" → args "limit" = none →
        (ms.executeQueryHandler lib args).issued = [⟨"SELECT * FROM t LIMIT 100", []⟩]) ∧
      (q = "SELECT * FROM t" → args "limit" = some (ArgVal.float 7) →
        (ms.executeQueryHandler lib args).issued = [⟨"SELECT * FROM t LIMIT 7", []⟩]) ∧
      (q = "select * from t limit 5" →
        (ms.executeQueryHandler lib args).issued = [⟨"select * from t limit 5", []⟩]) := by
  have main : (ms.executeQueryHandler lib args).issued =
        [⟨if strings.HasPrefix (strings.TrimSpace (strings.ToUpper lib q)) "SELECT" = true ∧
              strings.Contains (strings.ToUpper lib q) "LIMIT" = false
            then q ++ " LIMIT " ++ fmtInt (getIntFromArgs lib args "limit" 100) else q, []⟩] := by
    rw [executeQuery_issued lib ms args q hq hne hpass, contains_trimSpace_limit]
    simp only [Bool.and_eq_true, Bool.not_eq_true']
  have hdef : args "limit" = none → getIntFromArgs lib args "limit" 100 = 100 := by
    intro h
    simp [getIntFromArgs, h]
  have hfloor : ∀ v : Rat, args "limit" = some (ArgVal.float v) → 0 ≤ v → v < 2 ^ 63 →
      getIntFromArgs lib args "limit" 100 = ⌊v⌋ := by
    intro v h h0 h1
    simp only [getIntFromArgs, h]
    exact floatToInt_nonneg lib v h0 h1
  refine ⟨main, hdef, getInt_noNumber lib args _ _, ?_, hfloor, ?_, ?_, fmtInt_nonneg,
    fmtInt_neg, ?_, ?_, ?_⟩
  · intro n h
    simp [getIntFromArgs, h]
  · intro v h h0 h1
    simp only [getIntFromArgs, h]
    exact floatToInt_nonpos lib v h0 h1
  · intro v h hr
    simp only [getIntFromArgs, h]
    exact floatToInt_out_of_range lib v hr
  · intro hx hl
    rw [main, hdef hl]
    subst hx
    rfl
  · intro hx hl
    have h7 : getIntFromArgs lib args "limit" 100 = 7 := by
      rw [hfloor 7 hl (by norm_num) (by norm_num)]
      exact Int.floor_ofNat 7
    rw [main, h7]
    subst hx
    rfl
  · intro hx
    rw [main]
    subst hx
    rfl

/-- C2 amended, at `SELECT * FROM t` with the limit 7 sent as a JSON number:
`LIMIT 7` is appended. -/
theorem c2_limit_appended_witness :
    argsOf [("query", ArgVal.str "SELECT * FROM t"), ("limit", ArgVal.float 7)] "query" =
        some (ArgVal.str "SELECT * FROM t") ∧
      (MySQLServer.executeQueryHandler sampleLib ⟨stubDB 0 []⟩
        (argsOf [("query", ArgVal.str "SELECT * FROM t"),
          ("limit", ArgVal.float 7)])).issued = [⟨"SELECT * FROM t LIMIT 7", []⟩] :=
  ⟨rfl, (c2_limit_appended sampleLib ⟨stubDB 0 []⟩
    (argsOf [("query", ArgVal.str "SELECT * FROM t"), ("limit", ArgVal.float 7)])
    "SELECT * FROM t" rfl (by decide) (Or.inl rfl)).2.2.2.2.2.2.2.2.2.2.1 rfl rfl⟩

/-! ## Required arguments -/

theorem callTool_absent_eq_empty (lib : GoLib) (ms : MySQLServer) (tool : Tool) (args : Args)
    (name : String) (hreq : name ∈ requiredArgs tool) :
    ms.callTool lib tool (Function.update args name none) =
      ms.callTool lib tool (Function.update args name (some (ArgVal.str ""))) := by
  cases tool <;> simp only [requiredArgs, List.mem_cons, List.mem_singleton, List.not_mem_nil,
    or_false] at hreq
  · subst hreq
    simp [MySQLServer.callTool, MySQLServer.listTablesHandler, asString, Run.toDoc]
  · rcases hreq with h | h <;> subst h <;>
      simp [MySQLServer.callTool, MySQLServer.getTableCreateHandler, asString, Run.toDoc,
        Function.update]
  · subst hreq
    simp [MySQLServer.callTool, MySQLServer.executeQueryHandler, asString, Run.toDoc]
  · rcases hreq with h | h | h <;> subst h <;>
      simp [MySQLServer.callTool, MySQLServer.searchTableHandler, asString, Run.toDoc,
        Function.update]
  · rcases hreq with h | h <;> subst h <;>
      simp [MySQLServer.callTool, MySQLServer.getTableStructureHandler, asString, Run.toDoc,
        Function.update]

theorem callTool_first_missing (lib : GoLib) (ms : MySQLServer) (tool : Tool) (args : Args)
    (name : String) (i : Nat) (hi : (requiredArgs tool).get? i = some name)
    (hpre : ∀ j r, j < i → (requiredArgs tool).get? j = some r → Present args r)
    (hmiss : args name = none ∨ args name = some (ArgVal.str "")) :
    ms.callTool lib tool args = ⟨Outcome.error (name ++ " parameter is required"), []⟩ := by
  cases tool
  · simp [requiredArgs] at hi
  · rcases i with _ | i
    · simp [requiredArgs] at hi
      subst hi
      rcases hmiss with h | h <;>
        simp [MySQLServer.callTool, MySQLServer.listTablesHandler, asString, Run.toDoc, h]
    · simp [requiredArgs] at hi
  · rcases i with _ | _ | i
    · simp [requiredArgs] at hi
      subst hi
      rcases hmiss with h | h <;>
        simp [MySQLServer.callTool, MySQLServer.getTableCreateHandler, asString, Run.toDoc, h]
    · simp [requiredArgs] at hi
      subst hi
      obtain ⟨s, hs, hs'⟩ := hpre 0 "schema" (by omega) rfl
      rcases hmiss with h | h <;>
        simp [MySQLServer.callTool, MySQLServer.getTableCreateHandler, asString, Run.toDoc, h,
          hs, hs']
    · simp [requiredArgs] at hi
  · rcases i with _ | i
    · simp [requiredArgs] at hi
      subst hi
      rcases hmiss with h | h <;>
        simp [MySQLServer.callTool, MySQLServer.executeQueryHandler, asString, Run.toDoc, h]
    · simp [requiredArgs] at hi
  · rcases i with _ | _ | _ | i
    · simp [requiredArgs] at hi
      subst hi
      rcases hmiss with h | h <;>
        simp [MySQLServer.callTool, MySQLServer.searchTableHandler, asString, Run.toDoc, h]
    · simp [requiredArgs] at hi
      subst hi
      obtain ⟨s, hs, hs'⟩ := hpre 0 "schema" (by omega) rfl
      rcases hmiss with h | h <;>
        simp [MySQLServer.callTool, MySQLServer.searchTableHandler, asString, Run.toDoc, h,
          hs, hs']
    · simp [requiredArgs] at hi
      subst hi
      obtain ⟨s, hs, hs'⟩ := hpre 0 "schema" (by omega) rfl
      obtain ⟨t, ht, ht'⟩ := hpre 1 "table" (by omega) rfl
      rcases hmiss with h | h <;>
        simp [MySQLServer.callTool, MySQLServer.searchTableHandler, asString, Run.toDoc, h,
          hs, hs', ht, ht']
    · simp [requiredArgs] at hi
  · rcases i with _ | _ | i
    · simp [requiredArgs] at hi
      subst hi
      rcases hmiss with h | h <;>
        simp [MySQLServer.callTool, MySQLServer.getTableStructureHandler, asString, Run.toDoc, h]
    · simp [requiredArgs] at hi
      subst hi
      obtain ⟨s, hs, hs'⟩ := hpre 0 "schema" (by omega) rfl
      rcases hmiss with h | h <;>
        simp [MySQLServer.callTool, MySQLServer.getTableStructureHandler, asString, Run.toDoc,
          h, hs, hs']
    · simp [requiredArgs] at hi

/-- C3: for a tool and one of its required string arguments `name`, the call
with `name` absent and the call with `name` set to the empty string give the
same run; and when `name` is the first required argument, in the order of
declaration, that is absent or empty, the call ends with the error
"`name` parameter is required", without a document and without a statement
sent. -/
theorem c3_absent_like_empty (lib : GoLib) (ms : MySQLServer) (tool : Tool) (args : Args)
    (name : String) (i : Nat) (hi : (requiredArgs tool).get? i = some name) :
    ms.callTool lib tool (Function.update args name none) =
        ms.callTool lib tool (Function.update args name (some (ArgVal.str ""))) ∧
      ((∀ j r, j < i → (requiredArgs tool).get? j = some r → Present args r) →
        (args name = none ∨ args name = some (ArgVal.str "")) →
        ms.callTool lib tool args =
            ⟨Outcome.error (name ++ " parameter is required"), []⟩ ∧
          ∀ d, (ms.callTool lib tool args).outcome ≠ Outcome.result d) := by
  refine ⟨callTool_absent_eq_empty lib ms tool args name (List.get?_mem hi), ?_⟩
  intro hpre hmiss
  have h := callTool_first_missing lib ms tool args name i hi hpre hmiss
  refine ⟨h, ?_⟩
  intro d hd
  rw [h] at hd
  exact Outcome.noConfusion hd

/-- C3, at `search_table` with a schema and an empty table name. -/
theorem c3_absent_like_empty_witness :
    (requiredArgs Tool.search_table).get? 1 = some "table" ∧
      MySQLServer.callTool sampleLib ⟨stubDB 0 []⟩ Tool.search_table
          (argsOf [("schema", ArgVal.str "shop"), ("table", ArgVal.str "")]) =
        ⟨Outcome.error "table parameter is required", []⟩ :=
  ⟨rfl, ((c3_absent_like_empty sampleLib ⟨stubDB 0 []⟩ Tool.search_table
    (argsOf [("schema", ArgVal.str "shop"), ("table", ArgVal.str "")]) "table" 1 rfl).2
    (by
      intro j r hj hr
      have hj0 : j = 0 := by omega
      subst hj0
      have hr' : r = "schema" := by
        simp [requiredArgs] at hr
        exact hr.symm
      subst hr'
      exact ⟨"shop", by decide, rfl⟩)
    (Or.inr rfl)).1⟩

/-! ## Validation errors and the statements sent -/

theorem traced_argument {α : Type} (m : String) (col : List Stmt) (hm : m ∈ argumentErrors) :
    Traced (⟨Outcome.error m, []⟩ : Run α) col := by
  intro msg h
  injection h with h
  subst h
  refine ⟨fun _ => rfl, fun h => ?_⟩
  exfalso
  subst h
  revert hm
  decide

theorem traced_failed {α : Type} (pre e : String) (l col : List Stmt)
    (hp : pre.data.head? = some 'f') :
    Traced (⟨Outcome.error (pre ++ e), l⟩ : Run α) col := by
  intro msg h
  injection h with h
  subst h
  constructor
  · intro hm
    exfalso
    simp only [argumentErrors, List.mem_cons, List.mem_singleton, List.not_mem_nil,
      or_false] at hm
    rcases hm with h | h | h | h | h <;> exact failed_ne pre e _ hp (by decide) h
  · intro h
    exact absurd h (failed_ne pre e _ hp (by decide))

theorem traced_result {α : Type} (d : α) (l col : List Stmt) :
    Traced (⟨jsonResult d, l⟩ : Run α) col := by
  intro msg h
  simp [jsonResult] at h

theorem traced_panic {α : Type} (m : String) (l col : List Stmt) :
    Traced (⟨Outcome.panic m, l⟩ : Run α) col := by
  intro msg h
  simp at h

theorem traced_noSearchable {α : Type} (col : List Stmt) :
    Traced (⟨Outcome.error noSearchableMsg, col⟩ : Run α) col := by
  intro msg h
  injection h with h
  subst h
  refine ⟨fun hm => ?_, fun _ => rfl⟩
  exfalso
  revert hm
  decide

theorem toDoc_traced {α : Type} (f : α → Doc) (r : Run α) (col : List Stmt)
    (h : Traced r col) : Traced (r.toDoc f) col := by
  intro msg hm
  unfold Run.toDoc at hm ⊢
  cases ho : r.outcome with
  | result d => rw [ho] at hm; simp at hm
  | panic m => rw [ho] at hm; simp at hm
  | error m =>
    rw [ho] at hm
    simp only [Outcome.error.injEq] at hm
    subst hm
    simpa using h m ho

theorem listSchemas_traced (lib : GoLib) (ms : MySQLServer) (args : Args) (col : List Stmt) :
    Traced (ms.listSchemasHandler lib args) col := by
  unfold MySQLServer.listSchemasHandler
  simp only []
  repeat' split
  all_goals first
    | exact traced_failed _ _ _ _ rfl
    | exact traced_result _ _ _
    | exact traced_panic _ _ _

theorem listTables_traced (lib : GoLib) (ms : MySQLServer) (args : Args) (col : List Stmt) :
    Traced (ms.listTablesHandler lib args) col := by
  unfold MySQLServer.listTablesHandler
  simp only []
  repeat' split
  all_goals first
    | exact traced_failed _ _ _ _ rfl
    | exact traced_result _ _ _
    | exact traced_panic _ _ _
    | exact traced_argument _ _ (by decide)

theorem getTableCreate_traced (ms : MySQLServer) (args : Args) (col : List Stmt) :
    Traced (ms.getTableCreateHandler args) col := by
  unfold MySQLServer.getTableCreateHandler
  simp only []
  repeat' split
  all_goals first
    | exact traced_failed _ _ _ _ rfl
    | exact traced_result _ _ _
    | exact traced_argument _ _ (by decide)

theorem executeQuery_traced (lib : GoLib) (ms : MySQLServer) (args : Args) (col : List Stmt) :
    Traced (ms.executeQueryHandler lib args) col := by
  unfold MySQLServer.executeQueryHandler
  simp only []
  repeat' split
  all_goals first
    | exact traced_failed _ _ _ _ rfl
    | exact traced_result _ _ _
    | exact traced_argument _ _ (by decide)

theorem searchTable_traced (lib : GoLib) (ms : MySQLServer) (args : Args) :
    Traced (ms.searchTableHandler lib args)
      [⟨searchColQuery, [.str (asString args "schema").1, .str (asString args "table").1]⟩] := by
  unfold MySQLServer.searchTableHandler
  simp only []
  repeat' split
  all_goals first
    | exact traced_failed _ _ _ _ rfl
    | exact traced_result _ _ _
    | exact traced_argument _ _ (by decide)
    | exact traced_noSearchable _

theorem getTableStructure_traced (ms : MySQLServer) (args : Args) (col : List Stmt) :
    Traced (ms.getTableStructureHandler args) col := by
  unfold MySQLServer.getTableStructureHandler
  simp only []
  repeat' split
  all_goals first
    | exact traced_failed _ _ _ _ rfl
    | exact traced_result _ _ _
    | exact traced_argument _ _ (by decide)

/-- C4 as stated fails: `search_table` on a table with the single column
`id` of type `int` ends with the validation error "no searchable columns
found in table" after the column query has been sent. -/
theorem c4_search_error_after_query :
    (MySQLServer.callTool sampleLib ⟨stubDB 0 [("id", "int")]⟩ Tool.search_table
        (argsOf [("schema", ArgVal.str "shop"), ("table", ArgVal.str "orders"),
          ("search_term", ArgVal.str "x")])).outcome = Outcome.error noSearchableMsg ∧
      noSearchableMsg ∈ validationErrors ∧
      (MySQLServer.callTool sampleLib ⟨stubDB 0 [("id", "int")]⟩ Tool.search_table
        (argsOf [("schema", ArgVal.str "shop"), ("table", ArgVal.str "orders"),
          ("search_term", ArgVal.str "x")])).issued =
        [⟨searchColQuery, [.str "shop", .str "orders"]⟩] :=
  ⟨rfl, by decide, rfl⟩

/-- C4, amended: whenever a tool ends with the error for a missing or empty
required argument or for a statement kind that is not allowed, no statement
has been sent; whenever it ends with the error for a table without
searchable columns, exactly one statement has been sent, the column query of
`search_table`. -/
theorem c4_validation_error_trace (lib : GoLib) (ms : MySQLServer) (tool : Tool)
    (args : Args) (msg : String)
    (h : (ms.callTool lib tool args).outcome = Outcome.error msg) :
    (msg ∈ argumentErrors → (ms.callTool lib tool args).issued = []) ∧
      (msg = noSearchableMsg → (ms.callTool lib tool args).issued =
        [⟨searchColQuery,
          [.str (asString args "schema").1, .str (asString args "table").1]⟩]) := by
  have key : Traced (ms.callTool lib tool args)
      [⟨searchColQuery,
        [.str (asString args "schema").1, .str (asString args "table").1]⟩] := by
    cases tool
    · exact toDoc_traced _ _ _ (listSchemas_traced lib ms args _)
    · exact toDoc_traced _ _ _ (listTables_traced lib ms args _)
    · exact toDoc_traced _ _ _ (getTableCreate_traced ms args _)
    · exact toDoc_traced _ _ _ (executeQuery_traced lib ms args _)
    · exact toDoc_traced _ _ _ (searchTable_traced lib ms args)
    · exact toDoc_traced _ _ _ (getTableStructure_traced ms args _)
  exact key msg h

/-- C4 amended, at `execute_query` with `DELETE FROM t`. -/
theorem c4_validation_error_trace_witness :
    (MySQLServer.callTool sampleLib ⟨stubDB 0 []⟩ Tool.execute_query
        (argsOf [("query", ArgVal.str "DELETE FROM t")])).outcome =
        Outcome.error notAllowedMsg ∧
      (MySQLServer.callTool sampleLib ⟨stubDB 0 []⟩ Tool.execute_query
        (argsOf [("query", ArgVal.str "DELETE FROM t")])).issued = [] :=
  ⟨rfl, (c4_validation_error_trace sampleLib ⟨stubDB 0 []⟩ Tool.execute_query
    (argsOf [("query", ArgVal.str "DELETE FROM t")]) notAllowedMsg rfl).1 (by decide)⟩


/-! ## Pagination -/

/-- Ceiling division on Go integers, without overflow. -/
theorem divInt_ceil (t p : Int) (ht : 0 ≤ t) (hp1 : 1 ≤ p) (hp2 : p ≤ 100)
    (hov : t + p - 1 ≤ maxInt) :
    divInt (subInt (addInt t p) 1) p = some ⌈(t : ℚ) / (p : ℚ)⌉ := by
  have hmax : maxInt = 9223372036854775807 := by decide
  have hmin : minInt = -9223372036854775808 := by decide
  have e2 : subInt (addInt t p) 1 = t + p - 1 := by
    unfold subInt addInt wrapInt
    omega
  have hq0 : 0 ≤ (t + p - 1) / p := Int.ediv_nonneg (by omega) (by omega)
  have hqle : (t + p - 1) / p ≤ t + p - 1 := Int.ediv_le_self p (by omega : 0 ≤ t + p - 1)
  unfold divInt
  rw [e2, if_neg (by omega), Int.tdiv_eq_ediv (by omega) (by omega),
    wrapInt_id _ (by omega) (by omega)]
  congr 1
  symm
  rw [Int.ceil_eq_iff]
  have hp : (0 : ℚ) < p := by exact_mod_cast (by omega : 0 < p)
  have hmod := Int.emod_add_ediv (t + p - 1) p
  have hr0 := Int.emod_nonneg (t + p - 1) (by omega : p ≠ 0)
  have hr1 := Int.emod_lt_of_pos (t + p - 1) (by omega : 0 < p)
  constructor
  · rw [lt_div_iff₀ hp]
    have : ((t + p - 1) / p - 1) * p < t := by nlinarith
    exact_mod_cast this
  · rw [div_le_iff₀ hp]
    have : t ≤ (t + p - 1) / p * p := by nlinarith
    exact_mod_cast this


/-- What a document returned by `listSchemasHandler` holds. -/
theorem listSchemas_result (lib : GoLib) (ms : MySQLServer) (args : Args) (doc : SchemasDoc)
    (h : (ms.listSchemasHandler lib args).outcome = Outcome.result doc) :
    doc.page = getIntFromArgs lib args "page" 1 ∧
      doc.page_size =
        (if getIntFromArgs lib args "page_size" DefaultPageSize > MaxPageSize then MaxPageSize
          else getIntFromArgs lib args "page_size" DefaultPageSize) ∧
      ms.db.queryRowInt ⟨schemaCountQuery, []⟩ = .ok doc.total_count ∧
      divInt (subInt (addInt doc.total_count doc.page_size) 1) doc.page_size =
        some doc.total_pages := by
  unfold MySQLServer.listSchemasHandler at h
  simp only [] at h
  split at h
  · simp at h
  · rename_i total hc
    split at h
    · simp at h
    · split at h
      · simp at h
      · split at h
        · simp at h
        · rename_i tp hd
          simp only [jsonResult, Outcome.result.injEq] at h
          subst h
          exact ⟨rfl, rfl, hc, hd⟩

/-- The statements sent by `listSchemasHandler` once the count is known. -/
theorem listSchemas_issued (lib : GoLib) (ms : MySQLServer) (args : Args) (total : Int)
    (h : ms.db.queryRowInt ⟨schemaCountQuery, []⟩ = .ok total) :
    (ms.listSchemasHandler lib args).issued =
      [⟨schemaCountQuery, []⟩,
       ⟨schemaPageQuery,
        [.int (if getIntFromArgs lib args "page_size" DefaultPageSize > MaxPageSize
            then MaxPageSize else getIntFromArgs lib args "page_size" DefaultPageSize),
         .int (mulInt (subInt (getIntFromArgs lib args "page" 1) 1)
            (if getIntFromArgs lib args "page_size" DefaultPageSize > MaxPageSize
              then MaxPageSize else getIntFromArgs lib args "page_size" DefaultPageSize))]⟩] := by
  unfold MySQLServer.listSchemasHandler
  simp only [h]
  repeat' split
  all_goals rfl

theorem listSchemas_pageSize (lib : GoLib) (ms : MySQLServer) (args : Args) (ps : Int)
    (hps : (if getIntFromArgs lib args "page_size" DefaultPageSize > MaxPageSize
      then MaxPageSize else getIntFromArgs lib args "page_size" DefaultPageSize) = ps) :
    SchemasPageSize lib ms args ps := by
  constructor
  · intro total ht
    rw [listSchemas_issued lib ms args total ht, hps]
    exact ⟨_, rfl⟩
  · intro doc h
    rw [(listSchemas_result lib ms args doc h).2.1, hps]


/-- What a document returned by `listTablesHandler` holds. -/
theorem listTables_result (lib : GoLib) (ms : MySQLServer) (args : Args) (doc : TablesDoc)
    (h : (ms.listTablesHandler lib args).outcome = Outcome.result doc) :
    doc.page = getIntFromArgs lib args "page" 1 ∧
      doc.page_size =
        (if getIntFromArgs lib args "page_size" DefaultPageSize > MaxPageSize then MaxPageSize
          else getIntFromArgs lib args "page_size" DefaultPageSize) ∧
      divInt (subInt (addInt doc.total_count doc.page_size) 1) doc.page_size =
        some doc.total_pages := by
  unfold MySQLServer.listTablesHandler at h
  simp only [] at h
  split at h
  · simp at h
  · split at h
    · simp at h
    · split at h
      · simp at h
      · split at h
        · simp at h
        · split at h
          · simp at h
          · rename_i tp hd
            simp only [jsonResult, Outcome.result.injEq] at h
            subst h
            exact ⟨rfl, rfl, hd⟩

/-- The statements sent by `listTablesHandler` once the count is known. -/
theorem listTables_issued (lib : GoLib) (ms : MySQLServer) (args : Args) (schema : String)
    (total : Int) (hs : args "schema" = some (ArgVal.str schema)) (hne : schema ≠ "")
    (h : ms.db.queryRowInt ⟨tableCountQuery, [.str schema]⟩ = .ok total) :
    (ms.listTablesHandler lib args).issued =
      [⟨tableCountQuery, [.str schema]⟩,
       ⟨tablePageQuery,
        [.str schema,
         .int (if getIntFromArgs lib args "page_size" DefaultPageSize > MaxPageSize
            then MaxPageSize else getIntFromArgs lib args "page_size" DefaultPageSize),
         .int (mulInt (subInt (getIntFromArgs lib args "page" 1) 1)
            (if getIntFromArgs lib args "page_size" DefaultPageSize > MaxPageSize
              then MaxPageSize else getIntFromArgs lib args "page_size" DefaultPageSize))]⟩] := by
  unfold MySQLServer.listTablesHandler
  simp only [asString, hs, h]
  simp only [Bool.not_true, Bool.false_or, beq_iff_eq, hne, if_false]
  repeat' split
  all_goals rfl

theorem listTables_pageSize (lib : GoLib) (ms : MySQLServer) (args : Args) (ps : Int)
    (hps : (if getIntFromArgs lib args "page_size" DefaultPageSize > MaxPageSize
      then MaxPageSize else getIntFromArgs lib args "page_size" DefaultPageSize) = ps) :
    TablesPageSize lib ms args ps := by
  constructor
  · intro schema total hs hne ht
    rw [listTables_issued lib ms args schema total hs hne ht, hps]
    exact ⟨_, rfl⟩
  · intro doc h
    rw [(listTables_result lib ms args doc h).2.1, hps]

/-- The page size in effect is the same in both listings, whatever runs. -/
theorem pageSize_of_clamp (lib : GoLib) (ms : MySQLServer) (args : Args) (raw ps : Int)
    (hraw : getIntFromArgs lib args "page_size" DefaultPageSize = raw)
    (hps : (if raw > MaxPageSize then MaxPageSize else raw) = ps) :
    SchemasPageSize lib ms args ps ∧ TablesPageSize lib ms args ps := by
  subst hraw
  exact ⟨listSchemas_pageSize lib ms args ps hps, listTables_pageSize lib ms args ps hps⟩

/-- C5 as stated fails: the page size 1e19, sent as a JSON number, is above
100, yet the value bound to `LIMIT` is the result of the out-of-range
conversion to `int`, here -9223372036854775808, and not 100; and the page
size 2.5 gives 2. -/
theorem c5_page_size_out_of_range :
    (MySQLServer.listSchemasHandler sampleLib ⟨stubDB 3 []⟩
        (argsOf [("page_size", ArgVal.float 10000000000000000000)])).issued =
        [⟨schemaCountQuery, []⟩,
         ⟨schemaPageQuery, [.int (-9223372036854775808), .int 0]⟩] ∧
      ¬ SchemasPageSize sampleLib ⟨stubDB 3 []⟩
        (argsOf [("page_size", ArgVal.float 10000000000000000000)]) 100 ∧
      (MySQLServer.listSchemasHandler sampleLib ⟨stubDB 3 []⟩
        (argsOf [("page_size", ArgVal.float ⟨5, 2, by decide, by decide⟩)])).issued =
        [⟨schemaCountQuery, []⟩, ⟨schemaPageQuery, [.int 2, .int 0]⟩] := by
  refine ⟨rfl, ?_, rfl⟩
  intro h
  obtain ⟨offset, ho⟩ := h.1 3 rfl
  have hrun : (MySQLServer.listSchemasHandler sampleLib ⟨stubDB 3 []⟩
        (argsOf [("page_size", ArgVal.float 10000000000000000000)])).issued =
        [⟨schemaCountQuery, []⟩,
         ⟨schemaPageQuery, [.int (-9223372036854775808), .int 0]⟩] := rfl
  rw [hrun] at ho
  simp at ho

/-- C5, amended: in `list_schemas` and `list_tables` a `float64` page size
counts by its truncation toward zero.  A requested `page_size` above 100 (a
Go `int`, or a `float64` below 2^63) gives the page size 100; a requested
`page_size` from 1 to 100 (a Go `int`, or a `float64` `v` with
`1 <= v < 101`, which counts as `⌊v⌋`) gives itself; an absent `page_size`
gives 20.  The page size is the value bound to `LIMIT` and echoed as
`page_size`. -/
theorem c5_page_size_clamped (lib : GoLib) (ms : MySQLServer) (args : Args) :
    (∀ n : Int, args "page_size" = some (ArgVal.int n) → 100 < n →
        SchemasPageSize lib ms args 100 ∧ TablesPageSize lib ms args 100) ∧
      (∀ v : Rat, args "page_size" = some (ArgVal.float v) → 100 < v → v < 2 ^ 63 →
        SchemasPageSize lib ms args 100 ∧ TablesPageSize lib ms args 100) ∧
      (∀ n : Int, args "page_size" = some (ArgVal.int n) → 1 ≤ n → n ≤ 100 →
        SchemasPageSize lib ms args n ∧ TablesPageSize lib ms args n) ∧
      (∀ v : Rat, args "page_size" = some (ArgVal.float v) → 1 ≤ v → v < 101 →
        SchemasPageSize lib ms args ⌊v⌋ ∧ TablesPageSize lib ms args ⌊v⌋) ∧
      (∀ (v : Rat) (n : Int), args "page_size" = some (ArgVal.float v) → v = n →
        1 ≤ n → n ≤ 100 →
        SchemasPageSize lib ms args n ∧ TablesPageSize lib ms args n) ∧
      (args "page_size" = none →
        SchemasPageSize lib ms args 20 ∧ TablesPageSize lib ms args 20) := by
  have hint : ∀ n : Int, args "page_size" = some (ArgVal.int n) →
      getIntFromArgs lib args "page_size" DefaultPageSize = n := by
    intro n h
    simp [getIntFromArgs, h]
  have hfloat : ∀ v : Rat, args "page_size" = some (ArgVal.float v) → 0 ≤ v → v < 2 ^ 63 →
      getIntFromArgs lib args "page_size" DefaultPageSize = ⌊v⌋ := by
    intro v h h0 h1
    simp only [getIntFromArgs, h]
    exact floatToInt_nonneg lib v h0 h1
  have hsmall : ∀ v : Rat, args "page_size" = some (ArgVal.float v) → 1 ≤ v → v < 101 →
      SchemasPageSize lib ms args ⌊v⌋ ∧ TablesPageSize lib ms args ⌊v⌋ := by
    intro v h h1 h2
    have hlt : ⌊v⌋ < 101 := Int.floor_lt.mpr (by exact_mod_cast h2)
    refine pageSize_of_clamp lib ms args ⌊v⌋ ⌊v⌋
      (hfloat v h (by linarith) (by linarith)) ?_
    simp only [MaxPageSize]
    split
    · omega
    · rfl
  refine ⟨?_, ?_, ?_, hsmall, ?_, ?_⟩
  · intro n h h1
    refine pageSize_of_clamp lib ms args n 100 (hint n h) ?_
    simp [MaxPageSize, h1]
  · intro v h h1 h2
    have hge : (100 : Int) ≤ ⌊v⌋ := Int.le_floor.mpr (by exact_mod_cast h1.le)
    refine pageSize_of_clamp lib ms args ⌊v⌋ 100 (hfloat v h (by linarith) h2) ?_
    simp only [MaxPageSize]
    split
    · rfl
    · omega
  · intro n h h1 h2
    refine pageSize_of_clamp lib ms args n n (hint n h) ?_
    simp only [MaxPageSize]
    split
    · omega
    · rfl
  · intro v n h hv h1 h2
    have hfl : ⌊v⌋ = n := by rw [hv]; exact Int.floor_intCast n
    have := hsmall v h (by rw [hv]; exact_mod_cast h1)
      (by rw [hv]; exact_mod_cast (by omega : n < 101))
    rwa [hfl] at this
  · intro h
    refine pageSize_of_clamp lib ms args 20 20 ?_ (by decide)
    simp [getIntFromArgs, h, DefaultPageSize]

/-- C5 amended, at the page size 250 sent as a JSON number. -/
theorem c5_page_size_clamped_witness :
    argsOf [("page_size", ArgVal.float 250)] "page_size" = some (ArgVal.float 250) ∧
      (100 : Rat) < 250 ∧
      SchemasPageSize sampleLib ⟨catalogDB ["a", "b", "c"]⟩
        (argsOf [("page_size", ArgVal.float 250)]) 100 :=
  ⟨rfl, by norm_num,
    ((c5_page_size_clamped sampleLib ⟨catalogDB ["a", "b", "c"]⟩
      (argsOf [("page_size", ArgVal.float 250)])).2.1 250 rfl (by norm_num)
      (by norm_num)).1⟩

/-! ## Page sizes below 1 -/

/-- C6 as stated fails: the requested page size -5 is bound to `LIMIT` as it
is, and the requested page size -2.9 as -2; the page size in effect is not
20. -/
theorem c6_negative_page_size_kept :
    Requested (argsOf [("page_size", ArgVal.float (-5))]) "page_size" (-5) ∧
      (MySQLServer.listSchemasHandler sampleLib ⟨stubDB 3 []⟩
        (argsOf [("page_size", ArgVal.float (-5))])).issued =
        [⟨schemaCountQuery, []⟩, ⟨schemaPageQuery, [.int (-5), .int 0]⟩] ∧
      ¬ SchemasPageSize sampleLib ⟨stubDB 3 []⟩ (argsOf [("page_size", ArgVal.float (-5))]) 20 ∧
      (MySQLServer.listSchemasHandler sampleLib ⟨stubDB 3 []⟩
        (argsOf [("page_size", ArgVal.float ⟨-29, 10, by decide, by decide⟩)])).issued =
        [⟨schemaCountQuery, []⟩, ⟨schemaPageQuery, [.int (-2), .int 0]⟩] := by
  refine ⟨Or.inr rfl, rfl, ?_, rfl⟩
  intro h
  obtain ⟨offset, ho⟩ := h.1 3 rfl
  have hrun : (MySQLServer.listSchemasHandler sampleLib ⟨stubDB 3 []⟩
        (argsOf [("page_size", ArgVal.float (-5))])).issued =
        [⟨schemaCountQuery, []⟩, ⟨schemaPageQuery, [.int (-5), .int 0]⟩] := rfl
  rw [hrun] at ho
  simp at ho

/-- C6, amended: in `list_schemas` and `list_tables` a negative requested
`page_size` is not replaced by the default: a Go `int` below 0 is the page
size in effect, unchanged, and a `float64` `v` with `-2^63 - 1 < v <= -1`
gives its truncation toward zero `⌈v⌉` (itself when it is a whole number),
which is negative.  The default 20 is in effect when `page_size` is absent
or not a number.  Whenever `page_size` is absent, not a number, a Go `int` of
at least 1, or a `float64` `v` with `1 <= v < 2^63`, the page size in effect
lies in the range 1..100. -/
theorem c6_page_size_range (lib : GoLib) (ms : MySQLServer) (args : Args) :
    (∀ n : Int, args "page_size" = some (ArgVal.int n) → n < 0 →
        SchemasPageSize lib ms args n ∧ TablesPageSize lib ms args n) ∧
      (∀ v : Rat, args "page_size" = some (ArgVal.float v) → v ≤ -1 → -(2 ^ 63) - 1 < v →
        (SchemasPageSize lib ms args ⌈v⌉ ∧ TablesPageSize lib ms args ⌈v⌉) ∧ ⌈v⌉ ≤ -1 ∧
          ∀ n : Int, v = n → ⌈v⌉ = n) ∧
      (NoNumber args "page_size" →
        SchemasPageSize lib ms args 20 ∧ TablesPageSize lib ms args 20) ∧
      ((NoNumber args "page_size" ∨
          (∃ n : Int, args "page_size" = some (ArgVal.int n) ∧ 1 ≤ n) ∨
          (∃ v : Rat, args "page_size" = some (ArgVal.float v) ∧ 1 ≤ v ∧ v < 2 ^ 63)) →
        ∃ ps : Int, 1 ≤ ps ∧ ps ≤ 100 ∧
          SchemasPageSize lib ms args ps ∧ TablesPageSize lib ms args ps) := by
  have hdef : NoNumber args "page_size" →
      SchemasPageSize lib ms args 20 ∧ TablesPageSize lib ms args 20 := by
    intro h
    exact pageSize_of_clamp lib ms args 20 20
      (by rw [getInt_noNumber lib args _ _ h]; rfl) (by decide)
  have hclamp : ∀ raw : Int, 1 ≤ raw →
      getIntFromArgs lib args "page_size" DefaultPageSize = raw →
      ∃ ps : Int, 1 ≤ ps ∧ ps ≤ 100 ∧
        SchemasPageSize lib ms args ps ∧ TablesPageSize lib ms args ps := by
    intro raw h1 hraw
    by_cases hn : raw ≤ 100
    · refine ⟨raw, h1, hn, pageSize_of_clamp lib ms args raw raw hraw ?_⟩
      simp only [MaxPageSize]
      split
      · omega
      · rfl
    · refine ⟨100, by decide, by decide, pageSize_of_clamp lib ms args raw 100 hraw ?_⟩
      simp only [MaxPageSize]
      split
      · rfl
      · omega
  refine ⟨?_, ?_, hdef, ?_⟩
  · intro n h h1
    refine pageSize_of_clamp lib ms args n n (by simp [getIntFromArgs, h]) ?_
    simp only [MaxPageSize]
    split
    · omega
    · rfl
  · intro v h h1 h2
    have hraw : getIntFromArgs lib args "page_size" DefaultPageSize = ⌈v⌉ := by
      simp only [getIntFromArgs, h]
      exact floatToInt_nonpos lib v (by linarith) h2
    have hneg : ⌈v⌉ ≤ -1 := Int.ceil_le.mpr (by exact_mod_cast h1)
    refine ⟨pageSize_of_clamp lib ms args ⌈v⌉ ⌈v⌉ hraw ?_, hneg, ?_⟩
    · simp only [MaxPageSize]
      split
      · omega
      · rfl
    · intro n hv
      rw [hv]
      exact Int.ceil_intCast n
  · rintro (h | ⟨n, h, h1⟩ | ⟨v, h, h1, h2⟩)
    · exact ⟨20, by decide, by decide, hdef h⟩
    · exact hclamp n h1 (by simp [getIntFromArgs, h])
    · have hraw : getIntFromArgs lib args "page_size" DefaultPageSize = ⌊v⌋ := by
        simp only [getIntFromArgs, h]
        exact floatToInt_nonneg lib v (by linarith) h2
      exact hclamp ⌊v⌋ (Int.le_floor.mpr (by exact_mod_cast h1)) hraw

/-- C6 amended, at the page size -5 sent as a JSON number. -/
theorem c6_page_size_range_witness :
    argsOf [("page_size", ArgVal.float (-5))] "page_size" = some (ArgVal.float (-5)) ∧
      (-5 : Rat) ≤ -1 ∧ ⌈(-5 : Rat)⌉ = -5 ∧
      SchemasPageSize sampleLib ⟨stubDB 3 []⟩ (argsOf [("page_size", ArgVal.float (-5))])
        ⌈(-5 : Rat)⌉ :=
  ⟨rfl, by norm_num,
    ((c6_page_size_range sampleLib ⟨stubDB 3 []⟩
      (argsOf [("page_size", ArgVal.float (-5))])).2.1 (-5) rfl (by norm_num)
      (by norm_num)).2.2 (-5) (by norm_num),
    ((c6_page_size_range sampleLib ⟨stubDB 3 []⟩
      (argsOf [("page_size", ArgVal.float (-5))])).2.1 (-5) rfl (by norm_num)
      (by norm_num)).1.1⟩

/-- C7 fails on the code: `list_schemas` with `page_size` 0, on a database
that answers the count query with 3 and the page query with no rows, sends
both statements and then panics on the division by the page size. -/
theorem c7_page_size_zero_panics :
    MySQLServer.listSchemasHandler sampleLib ⟨stubDB 3 []⟩
        (argsOf [("page_size", ArgVal.float 0)]) =
      ⟨Outcome.panic divideByZero,
        [⟨schemaCountQuery, []⟩, ⟨schemaPageQuery, [.int 0, .int 0]⟩]⟩ := by
  rfl

/-! ## The number of pages -/

/-- C8 as stated fails: with the count 2^63 - 1 and the page size 2 the sum
wraps around and `total_pages` is -2^62. -/
theorem c8_total_pages_wraps :
    (MySQLServer.listSchemasHandler sampleLib ⟨stubDB 9223372036854775807 []⟩
        (argsOf [("page_size", ArgVal.float 2)])).outcome =
      Outcome.result
        { schemas := [], page := 1, page_size := 2, total_count := 9223372036854775807,
          total_pages := -4611686018427387904 } := by
  rfl

theorem ceil_of_zero (p : Int) : ⌈((0 : Int) : ℚ) / (p : ℚ)⌉ = 0 := by
  simp

theorem ceil_of_dvd (t p : Int) (hp : 1 ≤ p) (hd : p ∣ t) :
    ⌈(t : ℚ) / (p : ℚ)⌉ = t / p := by
  obtain ⟨k, rfl⟩ := hd
  have hp0 : (p : ℚ) ≠ 0 := by exact_mod_cast (by omega : p ≠ 0)
  rw [Int.mul_ediv_cancel_left k (by omega : p ≠ 0)]
  push_cast
  rw [mul_div_cancel_left₀ _ hp0]
  exact Int.ceil_intCast k

/-- C8, amended: for a document returned by `list_schemas` or `list_tables`
with `total_count >= 0`, `page_size` in 1..100 and
`total_count + page_size - 1` at most 2^63 - 1, `total_pages` is the ceiling
of `total_count / page_size`; it is 0 when `total_count` is 0, and
`total_count / page_size` when `page_size` divides `total_count`. -/
theorem c8_total_pages_ceiling (lib : GoLib) (ms : MySQLServer) (args : Args) :
    (∀ doc : SchemasDoc, (ms.listSchemasHandler lib args).outcome = Outcome.result doc →
        0 ≤ doc.total_count → 1 ≤ doc.page_size → doc.page_size ≤ 100 →
        doc.total_count + doc.page_size - 1 ≤ maxInt →
        doc.total_pages = ⌈(doc.total_count : ℚ) / (doc.page_size : ℚ)⌉ ∧
          (doc.total_count = 0 → doc.total_pages = 0) ∧
          (doc.page_size ∣ doc.total_count →
            doc.total_pages = doc.total_count / doc.page_size)) ∧
      (∀ doc : TablesDoc, (ms.listTablesHandler lib args).outcome = Outcome.result doc →
        0 ≤ doc.total_count → 1 ≤ doc.page_size → doc.page_size ≤ 100 →
        doc.total_count + doc.page_size - 1 ≤ maxInt →
        doc.total_pages = ⌈(doc.total_count : ℚ) / (doc.page_size : ℚ)⌉ ∧
          (doc.total_count = 0 → doc.total_pages = 0) ∧
          (doc.page_size ∣ doc.total_count →
            doc.total_pages = doc.total_count / doc.page_size)) := by
  constructor
  · intro doc h h0 h1 h2 hov
    have hd := (listSchemas_result lib ms args doc h).2.2.2
    rw [divInt_ceil _ _ h0 h1 h2 hov] at hd
    have hc : doc.total_pages = ⌈(doc.total_count : ℚ) / (doc.page_size : ℚ)⌉ :=
      (Option.some.inj hd).symm
    refine ⟨hc, ?_, ?_⟩
    · intro hz
      rw [hc, hz]
      exact ceil_of_zero _
    · intro hdvd
      rw [hc]
      exact ceil_of_dvd _ _ h1 hdvd
  · intro doc h h0 h1 h2 hov
    have hd := (listTables_result lib ms args doc h).2.2
    rw [divInt_ceil _ _ h0 h1 h2 hov] at hd
    have hc : doc.total_pages = ⌈(doc.total_count : ℚ) / (doc.page_size : ℚ)⌉ :=
      (Option.some.inj hd).symm
    refine ⟨hc, ?_, ?_⟩
    · intro hz
      rw [hc, hz]
      exact ceil_of_zero _
    · intro hdvd
      rw [hc]
      exact ceil_of_dvd _ _ h1 hdvd

/-- C8 amended, at three schemas listed with the page size 2: two pages. -/
theorem c8_total_pages_ceiling_witness :
    (MySQLServer.listSchemasHandler sampleLib ⟨catalogDB ["a", "b", "c"]⟩
        (argsOf [("page_size", ArgVal.float 2)])).outcome =
        Outcome.result
          { schemas := ["a", "b"], page := 1, page_size := 2, total_count := 3,
            total_pages := 2 } ∧
      (2 : Int) = ⌈((3 : Int) : ℚ) / ((2 : Int) : ℚ)⌉ :=
  ⟨rfl, ((c8_total_pages_ceiling sampleLib ⟨catalogDB ["a", "b", "c"]⟩
    (argsOf [("page_size", ArgVal.float 2)])).1
    { schemas := ["a", "b"], page := 1, page_size := 2, total_count := 3, total_pages := 2 }
    rfl (by decide) (by decide) (by decide) (by decide)).1⟩


/-! ## `list_schemas` over a catalog -/

theorem scanAll_map_ok {ρ : Type} (l : List ρ) : scanAll (l.map Except.ok) = .ok l := by
  induction l with
  | nil => rfl
  | cons a as ih => simp [scanAll, ih]

/-- The run of `listSchemasHandler` on a database that answers both queries,
for a page size other than 0. -/
theorem listSchemas_success (lib : GoLib) (ms : MySQLServer) (args : Args)
    (page ps total : Int) (rows : List (Except String String)) (schemas : List String)
    (hpage : getIntFromArgs lib args "page" 1 = page)
    (hps : (if getIntFromArgs lib args "page_size" DefaultPageSize > MaxPageSize
      then MaxPageSize else getIntFromArgs lib args "page_size" DefaultPageSize) = ps)
    (hc : ms.db.queryRowInt ⟨schemaCountQuery, []⟩ = .ok total)
    (hq : ms.db.queryStrings
      ⟨schemaPageQuery, [.int ps, .int (mulInt (subInt page 1) ps)]⟩ = .ok rows)
    (hs : scanAll rows = .ok schemas) (hnz : ps ≠ 0) :
    ms.listSchemasHandler lib args =
      ⟨Outcome.result
        { schemas := schemas, page := page, page_size := ps, total_count := total,
          total_pages := wrapInt (Int.tdiv (subInt (addInt total ps) 1) ps) },
       [⟨schemaCountQuery, []⟩,
        ⟨schemaPageQuery, [.int ps, .int (mulInt (subInt page 1) ps)]⟩]⟩ := by
  unfold MySQLServer.listSchemasHandler
  simp only [hpage, hps, hc, hq, hs, divInt, if_neg hnz, jsonResult]

/-- C9 as stated fails: for page 2^62 + 1 and page size 4 the product
`(page - 1) * page_size` wraps around to 0, and the first page is returned
instead of an empty one. -/
theorem c9_offset_wraps :
    MySQLServer.listSchemasHandler sampleLib ⟨catalogDB ["a", "b", "c"]⟩
        (argsOf [("page", ArgVal.int 4611686018427387905), ("page_size", ArgVal.int 4)]) =
      ⟨Outcome.result
        { schemas := ["a", "b", "c"], page := 4611686018427387905, page_size := 4,
          total_count := 3, total_pages := 1 },
       [⟨schemaCountQuery, []⟩, ⟨schemaPageQuery, [.int 4, .int 0]⟩]⟩ := by
  rfl

/-- C9, amended: over a catalog given as the name-ordered list `names`, for
`page >= 1`, `page_size` in 1..100 and `(page - 1) * page_size` at most
2^63 - 1, `list_schemas` sends the page query with `LIMIT page_size` and
`OFFSET (page - 1) * page_size` and returns a document whose `schemas` are
the names at positions `offset .. offset + page_size - 1` (at most
`page_size` of them, none when the offset is beyond the list), whose `page`
and `page_size` echo the request and whose `total_count` is the length of
the list; page 2 of size 1 over a, b, c is b, with 3 pages in total. -/
theorem c9_list_schemas_page (lib : GoLib) (names : List String) (args : Args)
    (page ps : Int) (hpage : 1 ≤ page) (hpmax : page ≤ maxInt) (hps1 : 1 ≤ ps)
    (hps2 : ps ≤ 100) (hov : (page - 1) * ps ≤ maxInt)
    (hrp : Requested args "page" page) (hrs : Requested args "page_size" ps) :
    ∃ doc : SchemasDoc,
      (MySQLServer.listSchemasHandler lib ⟨catalogDB names⟩ args).outcome =
          Outcome.result doc ∧
        (MySQLServer.listSchemasHandler lib ⟨catalogDB names⟩ args).issued =
          [⟨schemaCountQuery, []⟩,
           ⟨schemaPageQuery, [.int ps, .int ((page - 1) * ps)]⟩] ∧
        doc.schemas = (names.drop ((page - 1) * ps).toNat).take ps.toNat ∧
        (doc.schemas.length : Int) ≤ ps ∧
        (∀ i : Nat, i < doc.schemas.length →
          doc.schemas.get? i = names.get? (((page - 1) * ps).toNat + i)) ∧
        ((names.length : Int) ≤ (page - 1) * ps → doc.schemas = []) ∧
        doc.page = page ∧ doc.page_size = ps ∧ doc.total_count = names.length ∧
        (names = ["a", "b", "c"] → page = 2 → ps = 1 →
          doc = { schemas := ["b"], page := 2, page_size := 1, total_count := 3,
                  total_pages := 3 }) := by
  have hmax : maxInt = 9223372036854775807 := by decide
  have hmin : minInt = -9223372036854775808 := by decide
  have hoff0 : 0 ≤ (page - 1) * ps := Int.mul_nonneg (by omega) (by omega)
  have e1 : subInt page 1 = page - 1 := wrapInt_id _ (by omega) (by omega)
  have e2 : mulInt (page - 1) ps = (page - 1) * ps := wrapInt_id _ (by omega) hov
  have hp := getInt_requested lib args "page" 1 page (by omega) hpmax hrp
  have hs := getInt_requested lib args "page_size" DefaultPageSize ps (by omega) (by omega) hrs
  have hclamp : (if getIntFromArgs lib args "page_size" DefaultPageSize > MaxPageSize
      then MaxPageSize else getIntFromArgs lib args "page_size" DefaultPageSize) = ps := by
    rw [hs]
    simp [MaxPageSize]
    omega
  have hrun := listSchemas_success lib ⟨catalogDB names⟩ args page ps names.length
    (((names.drop ((page - 1) * ps).toNat).take ps.toNat).map Except.ok)
    ((names.drop ((page - 1) * ps).toNat).take ps.toNat) hp hclamp
    (by simp [catalogDB])
    (by
      have h0 : 0 ≤ ps := by omega
      rw [e1, e2]
      simp [catalogDB, h0, hoff0])
    (scanAll_map_ok _) (by omega)
  rw [e1, e2] at hrun
  refine ⟨_, congrArg Run.outcome hrun, congrArg Run.issued hrun, rfl, ?_, ?_, ?_, rfl, rfl,
    rfl, ?_⟩
  · simp only [List.length_take]
    omega
  · intro i hi
    simp only [List.length_take, lt_min_iff] at hi
    rw [List.get?_eq_getElem?, List.get?_eq_getElem?, List.getElem?_take_of_lt hi.1,
      List.getElem?_drop]
  · intro hlen
    simp only
    rw [List.drop_eq_nil_of_le (by omega)]
    exact List.take_nil
  · intro hn hpg hsz
    subst hn hpg hsz
    rfl


/-- C9 amended, at page 2 of size 1 over the schemas a, b, c. -/
theorem c9_list_schemas_page_witness :
    (1 : Int) ≤ 2 ∧
      Requested (argsOf [("page", ArgVal.float 2), ("page_size", ArgVal.float 1)]) "page" 2 ∧
      Requested (argsOf [("page", ArgVal.float 2), ("page_size", ArgVal.float 1)])
        "page_size" 1 ∧
      ∃ doc : SchemasDoc,
        (MySQLServer.listSchemasHandler sampleLib ⟨catalogDB ["a", "b", "c"]⟩
          (argsOf [("page", ArgVal.float 2), ("page_size", ArgVal.float 1)])).outcome =
            Outcome.result doc ∧
          doc = { schemas := ["b"], page := 2, page_size := 1, total_count := 3,
                  total_pages := 3 } :=
  ⟨by decide, Or.inr rfl, Or.inr rfl, by
    obtain ⟨doc, h1, _, _, _, _, _, _, _, _, h10⟩ :=
      c9_list_schemas_page sampleLib ["a", "b", "c"]
        (argsOf [("page", ArgVal.float 2), ("page_size", ArgVal.float 1)]) 2 1
        (by decide) (by decide) (by decide) (by decide) (by decide) (Or.inr rfl) (Or.inr rfl)
    exact ⟨doc, h1, h10 rfl rfl rfl⟩⟩

/-! ## `search_table`: the `WHERE` clause and its parameters -/

theorem searchableClauses_eq (lib : GoLib) (cols : List (String × String)) :
    searchableClauses lib cols =
      (cols.filter (fun c => isSearchableType lib c.2)).map
        (fun c => "`" ++ c.1 ++ "` LIKE ?") := by
  induction cols with
  | nil => rfl
  | cons c rest ih =>
    obtain ⟨colName, dataType⟩ := c
    by_cases h : isSearchableType lib dataType = true
    · simp [searchableClauses, h, ih]
    · simp [searchableClauses, h, ih]

/-- The statements sent by `searchTableHandler` for a table with a
searchable column. -/
theorem searchTable_issued (lib : GoLib) (ms : MySQLServer) (args : Args)
    (schema table term : String) (colRows : List (Except String (String × String)))
    (cols : List (String × String))
    (hs : args "schema" = some (ArgVal.str schema)) (hsne : schema ≠ "")
    (ht : args "table" = some (ArgVal.str table)) (htne : table ≠ "")
    (hterm : args "search_term" = some (ArgVal.str term)) (htermne : term ≠ "")
    (hq : ms.db.queryNameTypes ⟨searchColQuery, [.str schema, .str table]⟩ = .ok colRows)
    (hscan : scanAll colRows = .ok cols)
    (hsome : (searchableClauses lib cols).length ≠ 0) :
    (ms.searchTableHandler lib args).issued =
      [⟨searchColQuery, [.str schema, .str table]⟩,
       ⟨"SELECT * FROM `" ++ schema ++ "`.`" ++ table ++ "` WHERE " ++
          strings.Join (searchableClauses lib cols) " OR " ++
          " LIMIT " ++ fmtInt (getIntFromArgs lib args "limit" 100),
        List.replicate (searchableClauses lib cols).length
          (SqlArg.str ("%" ++ term ++ "%"))⟩] := by
  unfold MySQLServer.searchTableHandler
  simp only [asString, hs, ht, hterm, hq, hscan]
  simp only [Bool.not_true, Bool.false_or, beq_iff_eq, hsne, htne, htermne, if_false]
  rw [if_neg hsome]
  repeat' split
  all_goals rfl

theorem count_join_clauses (names : List String) (h : ∀ n ∈ names, '?' ∉ n.data) :
    (strings.Join (names.map (fun n => "`" ++ n ++ "` LIKE ?")) " OR ").data.count '?' =
      names.length := by
  have hclause : ∀ n : String, '?' ∉ n.data →
      ("`" ++ n ++ "` LIKE ?").data.count '?' = 1 := by
    intro n hn
    simp only [String.data_append, List.count_append, List.count_eq_zero_of_not_mem hn]
    decide
  induction names with
  | nil => rfl
  | cons a rest ih =>
    cases rest with
    | nil =>
      simp only [List.map, strings.Join, List.length_singleton]
      exact hclause a (h a (by simp))
    | cons b rest' =>
      have ih' := ih (fun n hn => h n (List.mem_cons_of_mem _ hn))
      have ha : List.count '?' a.data = 0 :=
        List.count_eq_zero_of_not_mem (h a (by simp))
      have hq1 : List.count '?' ['`'] = 0 := by decide
      have hq2 : List.count '?' ['`', ' ', 'L', 'I', 'K', 'E', ' ', '?'] = 1 := by decide
      have hq3 : List.count '?' [' ', 'O', 'R', ' '] = 0 := by decide
      simp only [List.map, strings.Join, String.data_append, List.count_append,
        List.length_cons] at ih' ⊢
      rw [ih', ha, hq1, hq2, hq3]
      omega


/-- C10: for a table whose column listing `cols` (in ordinal order) has a
searchable column, and a non-empty search term, `search_table` sends after
the column query one statement whose `WHERE` clause is the clauses
`` `column` LIKE ? `` of the searchable columns, in the order of `cols`,
joined by " OR "; its bound parameters are as many as the clauses (and as the
`?` marks of the `WHERE` clause, when no searchable column name holds one),
each of them the string `%term%`. -/
theorem c10_search_where_clause (lib : GoLib) (ms : MySQLServer) (args : Args)
    (schema table term : String) (colRows : List (Except String (String × String)))
    (cols : List (String × String))
    (hs : args "schema" = some (ArgVal.str schema)) (hsne : schema ≠ "")
    (ht : args "table" = some (ArgVal.str table)) (htne : table ≠ "")
    (hterm : args "search_term" = some (ArgVal.str term)) (htermne : term ≠ "")
    (hq : ms.db.queryNameTypes ⟨searchColQuery, [.str schema, .str table]⟩ = .ok colRows)
    (hscan : scanAll colRows = .ok cols)
    (hsome : ∃ c ∈ cols, isSearchableType lib c.2 = true) :
    (ms.searchTableHandler lib args).issued =
        [⟨searchColQuery, [.str schema, .str table]⟩,
         ⟨"SELECT * FROM `" ++ schema ++ "`.`" ++ table ++ "` WHERE " ++
            strings.Join
              ((cols.filter (fun c => isSearchableType lib c.2)).map
                (fun c => "`" ++ c.1 ++ "` LIKE ?")) " OR " ++
            " LIMIT " ++ fmtInt (getIntFromArgs lib args "limit" 100),
          List.replicate (cols.filter (fun c => isSearchableType lib c.2)).length
            (SqlArg.str ("%" ++ term ++ "%"))⟩] ∧
      (List.replicate (cols.filter (fun c => isSearchableType lib c.2)).length
          (SqlArg.str ("%" ++ term ++ "%"))).length =
        ((cols.filter (fun c => isSearchableType lib c.2)).map
          (fun c => "`" ++ c.1 ++ "` LIKE ?")).length ∧
      (∀ a ∈ List.replicate (cols.filter (fun c => isSearchableType lib c.2)).length
          (SqlArg.str ("%" ++ term ++ "%")), a = SqlArg.str ("%" ++ term ++ "%")) ∧
      ((∀ c ∈ cols.filter (fun c => isSearchableType lib c.2), '?' ∉ c.1.data) →
        (strings.Join
            ((cols.filter (fun c => isSearchableType lib c.2)).map
              (fun c => "`" ++ c.1 ++ "` LIKE ?")) " OR ").data.count '?' =
          (List.replicate (cols.filter (fun c => isSearchableType lib c.2)).length
            (SqlArg.str ("%" ++ term ++ "%"))).length) := by
  have hne : (searchableClauses lib cols).length ≠ 0 := by
    rw [searchableClauses_eq, List.length_map]
    obtain ⟨c, hc, hsc⟩ := hsome
    have hmem : c ∈ cols.filter (fun c => isSearchableType lib c.2) :=
      List.mem_filter.mpr ⟨hc, hsc⟩
    exact Nat.ne_of_gt (List.length_pos_of_mem hmem)
  have hrun := searchTable_issued lib ms args schema table term colRows cols hs hsne ht htne
    hterm htermne hq hscan hne
  rw [searchableClauses_eq, List.length_map] at hrun
  refine ⟨hrun, by simp, ?_, ?_⟩
  · intro a ha
    exact List.eq_of_mem_replicate ha
  · intro hnames
    have hcount := count_join_clauses
      ((cols.filter (fun c => isSearchableType lib c.2)).map Prod.fst)
      (by
        intro n hn
        obtain ⟨c, hc, rfl⟩ := List.mem_map.mp hn
        exact hnames c hc)
    rw [List.map_map] at hcount
    rw [List.length_replicate]
    simpa using hcount

/-- C10, at a table with an `int`, a `varchar` and a `text` column, searched
for `ab`. -/
theorem c10_search_where_clause_witness :
    (∃ c ∈ [("id", "int"), ("name", "varchar"), ("note", "text")],
        isSearchableType sampleLib c.2 = true) ∧
      (MySQLServer.searchTableHandler sampleLib
          ⟨stubDB 0 [("id", "int"), ("name", "varchar"), ("note", "text")]⟩
          (argsOf [("schema", ArgVal.str "shop"), ("table", ArgVal.str "orders"),
            ("search_term", ArgVal.str "ab")])).issued =
        [⟨searchColQuery, [.str "shop", .str "orders"]⟩,
         ⟨"SELECT * FROM `shop`.`orders` WHERE `name` LIKE ? OR `note` LIKE ? LIMIT 100",
          [.str "%ab%", .str "%ab%"]⟩] :=
  ⟨⟨("name", "varchar"), by decide, by decide⟩,
    (c10_search_where_clause sampleLib
      ⟨stubDB 0 [("id", "int"), ("name", "varchar"), ("note", "text")]⟩
      (argsOf [("schema", ArgVal.str "shop"), ("table", ArgVal.str "orders"),
        ("search_term", ArgVal.str "ab")]) "shop" "orders" "ab" _
      [("id", "int"), ("name", "varchar"), ("note", "text")] rfl (by decide) rfl (by decide)
      rfl (by decide) rfl rfl ⟨("name", "varchar"), by decide, by decide⟩).1.trans (by rfl)⟩


/-! ## `search_table`: tables without a searchable column -/

theorem searchableClauses_length_eq_zero (lib : GoLib) (cols : List (String × String)) :
    (searchableClauses lib cols).length = 0 ↔
      ∀ c ∈ cols, ∀ m ∈ searchableTypes,
        strings.Contains (strings.ToLower lib c.2) m = false := by
  rw [searchableClauses_eq, List.length_map, List.length_eq_zero, List.filter_eq_nil_iff]
  constructor
  · intro h c hc m hm
    have hc' := h c hc
    simp only [isSearchableType, List.any_eq_true, not_exists, not_and,
      Bool.not_eq_true] at hc'
    exact hc' m hm
  · intro h c hc
    simp only [isSearchableType, List.any_eq_true, not_exists, not_and, Bool.not_eq_true]
    exact fun m hm => h c hc m hm

/-- C11: for the column list `cols` that the catalog returns for the table
(the empty list included), `search_table` ends with the error "no searchable
columns found in table", and so without a document, if and only if no
declared type in `cols`, lower-cased, contains one of the markers of
`searchableTypes`; a list of `int`, `datetime`, `blob` and `json` columns
gives the error. -/
theorem c11_no_searchable_columns (lib : GoLib) (ms : MySQLServer) (args : Args)
    (schema table term : String) (colRows : List (Except String (String × String)))
    (cols : List (String × String))
    (hs : args "schema" = some (ArgVal.str schema)) (hsne : schema ≠ "")
    (ht : args "table" = some (ArgVal.str table)) (htne : table ≠ "")
    (hterm : args "search_term" = some (ArgVal.str term)) (htermne : term ≠ "")
    (hq : ms.db.queryNameTypes ⟨searchColQuery, [.str schema, .str table]⟩ = .ok colRows)
    (hscan : scanAll colRows = .ok cols) :
    ((ms.searchTableHandler lib args).outcome = Outcome.error noSearchableMsg ↔
        ∀ c ∈ cols, ∀ m ∈ searchableTypes,
          strings.Contains (strings.ToLower lib c.2) m = false) ∧
      ((ms.searchTableHandler lib args).outcome = Outcome.error noSearchableMsg →
        ∀ doc, (ms.searchTableHandler lib args).outcome ≠ Outcome.result doc) ∧
      (searchableTypes =
        ["char", "varchar", "text", "tinytext", "mediumtext", "longtext", "enum", "set"]) ∧
      ((∀ c ∈ cols, c.2 = "int" ∨ c.2 = "datetime" ∨ c.2 = "blob" ∨ c.2 = "json") →
        (ms.searchTableHandler lib args).outcome = Outcome.error noSearchableMsg) := by
  have main : (ms.searchTableHandler lib args).outcome = Outcome.error noSearchableMsg ↔
      ∀ c ∈ cols, ∀ m ∈ searchableTypes,
        strings.Contains (strings.ToLower lib c.2) m = false := by
    rw [← searchableClauses_length_eq_zero]
    unfold MySQLServer.searchTableHandler
    simp only [asString, hs, ht, hterm, hq, hscan]
    simp only [Bool.not_true, Bool.false_or, beq_iff_eq, hsne, htne, htermne, if_false]
    split
    · rename_i h0
      simp [h0]
    · rename_i h0
      constructor
      · intro h
        exfalso
        revert h
        split
        · exact error_failed_ne _ _ _ rfl (by decide)
        · split
          · exact error_failed_ne _ _ _ rfl (by decide)
          · simp [jsonResult]
      · intro h
        exact absurd h h0
  refine ⟨main, ?_, rfl, ?_⟩
  · intro h doc hd
    rw [h] at hd
    exact Outcome.noConfusion hd
  · intro hall
    rw [main]
    intro c hc m hm
    simp only [searchableTypes, List.mem_cons, List.mem_singleton, List.not_mem_nil,
      or_false] at hm
    rcases hall c hc with h | h | h | h <;> rw [h] <;>
      rcases hm with h' | h' | h' | h' | h' | h' | h' | h' <;> subst h' <;> rfl

/-- C11, at a table with an `int` and a `datetime` column. -/
theorem c11_no_searchable_columns_witness :
    argsOf [("schema", ArgVal.str "shop"), ("table", ArgVal.str "orders"),
        ("search_term", ArgVal.str "ab")] "search_term" = some (ArgVal.str "ab") ∧
      (MySQLServer.searchTableHandler sampleLib
          ⟨stubDB 0 [("id", "int"), ("created", "datetime")]⟩
          (argsOf [("schema", ArgVal.str "shop"), ("table", ArgVal.str "orders"),
            ("search_term", ArgVal.str "ab")])).outcome = Outcome.error noSearchableMsg :=
  ⟨rfl, (c11_no_searchable_columns sampleLib
    ⟨stubDB 0 [("id", "int"), ("created", "datetime")]⟩
    (argsOf [("schema", ArgVal.str "shop"), ("table", ArgVal.str "orders"),
      ("search_term", ArgVal.str "ab")]) "shop" "orders" "ab" _
    [("id", "int"), ("created", "datetime")] rfl (by decide) rfl (by decide) rfl (by decide)
    rfl rfl).2.2.2 (by decide)⟩


/-! ## Row normalisation -/

/-- On a text with runes of one, two, three and four bytes, `utf8Bytes` gives
the bytes of the library's `String.toUTF8`. -/
theorem utf8Bytes_sample : utf8Bytes "aé€😀" = "aé€😀".toUTF8.data.toList := by
  decide

theorem splitList_no_sep (sep : Char) (l : List Char) (h : sep ∉ l) :
    strings.splitList sep l = [l] := by
  induction l with
  | nil => rfl
  | cons c cs ih =>
    simp only [List.mem_cons, not_or] at h
    have hc : ¬ c = sep := fun e => h.1 e.symm
    simp [strings.splitList, hc, ih h.2]

theorem splitList_append_sep (sep : Char) (l m : List Char) (h : sep ∉ l) :
    strings.splitList sep (l ++ sep :: m) = l :: strings.splitList sep m := by
  induction l with
  | nil => simp [strings.splitList]
  | cons c cs ih =>
    simp only [List.mem_cons, not_or] at h
    have hc : ¬ c = sep := fun e => h.1 e.symm
    simp [strings.splitList, hc, ih h.2]

/-- Splitting at the commas undoes the comma-join of names without a comma. -/
theorem split_join (names : List String) (hne : names ≠ [])
    (hn : ∀ n ∈ names, ',' ∉ n.data) :
    strings.Split (strings.Join names ",") ',' = names := by
  induction names with
  | nil => exact absurd rfl hne
  | cons a rest ih =>
    cases rest with
    | nil =>
      simp only [strings.Join, strings.Split]
      rw [splitList_no_sep ',' a.data (hn a (by simp))]
      rfl
    | cons b rest' =>
      have ih' := ih (by simp) (fun n h => hn n (List.mem_cons_of_mem _ h))
      simp only [strings.Split] at ih' ⊢
      simp only [strings.Join, String.data_append]
      rw [List.append_assoc, List.singleton_append,
        splitList_append_sep ',' a.data _ (hn a (by simp)), List.map_cons, ih']

/-- What a document returned by `getTableStructureHandler` holds for the
indexes. -/
theorem getTableStructure_result (ms : MySQLServer) (args : Args) (doc : StructureDoc)
    (h : (ms.getTableStructureHandler args).outcome = Outcome.result doc) :
    ∃ indexStmt idxRows scanned, indexStmt.text = structureIndexQuery ∧
      ms.db.queryIndexes indexStmt = .ok idxRows ∧ scanAll idxRows = .ok scanned ∧
      doc.indexes = scanned.map indexRecord := by
  revert h
  unfold MySQLServer.getTableStructureHandler
  simp only []
  repeat' split
  all_goals intro h
  all_goals first
    | (exfalso; simp [jsonResult] at h; done)
    | (simp only [jsonResult, Outcome.result.injEq] at h
       subst h
       exact ⟨_, _, _, rfl, by assumption, by assumption, rfl⟩)

/-- C13: in a document returned by `get_table_structure`, for every index
row whose concatenated column list is the comma-join of a non-empty sequence
of column names, none of which holds a comma, the `columns` of the index
record at the same position is that sequence, in the same order; the list
`b,a` of index `idx_a` gives `["b", "a"]`. -/
theorem c13_index_columns (ms : MySQLServer) (args : Args) (doc : StructureDoc)
    (h : (ms.getTableStructureHandler args).outcome = Outcome.result doc) :
    (∃ indexStmt idxRows scanned, indexStmt.text = structureIndexQuery ∧
        ms.db.queryIndexes indexStmt = .ok idxRows ∧ scanAll idxRows = .ok scanned ∧
        doc.indexes.length = scanned.length ∧
        ∀ (k : Nat) (r : IndexRow) (record : IndexDoc) (names : List String),
          scanned.get? k = some r → doc.indexes.get? k = some record →
          names ≠ [] → (∀ n ∈ names, ',' ∉ n.data) → r.columns = strings.Join names "," →
          record.name = r.indexName ∧ record.columns = names) ∧
      (indexRecord ⟨"idx_a", 1, "b,a"⟩).columns = ["b", "a"] ∧
      (indexRecord ⟨"idx_a", 1, "b,a"⟩).columns ≠ ["a", "b"] := by
  refine ⟨?_, rfl, by decide⟩
  obtain ⟨indexStmt, idxRows, scanned, ht, hq, hs, hd⟩ := getTableStructure_result ms args doc h
  refine ⟨indexStmt, idxRows, scanned, ht, hq, hs, by rw [hd, List.length_map], ?_⟩
  intro k r record names hr hrec hne hn hcols
  rw [hd, List.get?_eq_getElem?, List.getElem?_map, ← List.get?_eq_getElem?, hr] at hrec
  simp only [Option.map_some', Option.some.injEq] at hrec
  subst hrec
  refine ⟨rfl, ?_⟩
  simp only [indexRecord]
  rw [hcols]
  exact split_join names hne hn

/-- C13, at a table whose only index `idx_a` covers the columns b, a. -/
theorem c13_index_columns_witness :
    (MySQLServer.getTableStructureHandler ⟨indexDB [⟨"idx_a", 1, "b,a"⟩]⟩
        (argsOf [("schema", ArgVal.str "shop"), ("table", ArgVal.str "orders")])).outcome =
        Outcome.result
          { schema := "shop", table := "orders", columns := [],
            indexes := [{ name := "idx_a", unique := false, columns := ["b", "a"] }] } ∧
      (indexRecord ⟨"idx_a", 1, "b,a"⟩).columns = ["b", "a"] :=
  ⟨rfl, (c13_index_columns ⟨indexDB [⟨"idx_a", 1, "b,a"⟩]⟩
    (argsOf [("schema", ArgVal.str "shop"), ("table", ArgVal.str "orders")])
    { schema := "shop", table := "orders", columns := [],
      indexes := [{ name := "idx_a", unique := false, columns := ["b", "a"] }] } rfl).2.1⟩

end MysqlMcp
